import Mathlib

/-!
Verification development for the RFM69HCW radio driver scripts
(avionics_tx.py, groundstation_rx.py, integrated_avionics.py).

The drivers talk to the chip through single-register SPI reads and writes
plus FIFO bursts.  We embed each driver routine as a pure state-passing
function.  The chip is modelled as an oracle `Chip : Nat -> Nat -> Nat`
giving the byte returned by the i-th SPI read of a given register address
(reduced mod 256, since the hardware returns one byte).  The handle state
`St` records the driver's stored operating mode, a wall clock in
milliseconds, the read counter, the last stored RSSI value and the ordered
log of hardware actions performed.  Sleeps advance the clock by their
duration; in the busy-wait loops of integrated_avionics.py (which contain
no sleep) each iteration advances the clock by 1 ms, standing for the time
taken by the SPI transfer itself.  Polling loops are written with an
explicit fuel argument large enough that, given the in-loop deadline
checks copied from the source, the fuel can never run out.
-/

/-- One hardware-visible action of the driver. -/
inductive Act where
  | reset : Act
  | readReg : Nat → Act
  | writeReg : Nat → Nat → Act
  | writeFifo : List Nat → Act
  | readFifoN : Nat → Act
  | sleep : Nat → Act
  | logErr : Act
deriving DecidableEq, Repr

/-- Chip oracle: byte returned by the i-th register read, per address. -/
def Chip : Type := Nat → Nat → Nat

/-- Driver handle state: stored mode, wall clock (ms), read counter,
stored RSSI, and the ordered action log. -/
structure St where
  mode : Nat
  now : Nat
  rc : Nat
  last_rssi : Int
  log : List Act
deriving DecidableEq, Repr

-- Register addresses (identical tables in all three scripts).
def REG_FIFO : Nat := 0x00
def REG_OPMODE : Nat := 0x01
def REG_FRFMSB : Nat := 0x07
def REG_FRFMID : Nat := 0x08
def REG_FRFLSB : Nat := 0x09
def REG_VERSION : Nat := 0x10
def REG_PALEVEL : Nat := 0x11
def REG_OCP : Nat := 0x13
def REG_LNA : Nat := 0x18
def REG_RXBW : Nat := 0x19
def REG_AFCBW : Nat := 0x1A
def REG_RSSICONFIG : Nat := 0x23
def REG_RSSIVALUE : Nat := 0x24
def REG_IRQFLAGS1 : Nat := 0x27
def REG_IRQFLAGS2 : Nat := 0x28
def REG_RSSITHRESH : Nat := 0x29
def REG_SYNCCONFIG : Nat := 0x2E
def REG_SYNCVALUE1 : Nat := 0x2F
def REG_SYNCVALUE2 : Nat := 0x30
def REG_DATAMODUL : Nat := 0x02
def REG_BITRATEMSB : Nat := 0x03
def REG_BITRATELSB : Nat := 0x04
def REG_FDEVMSB : Nat := 0x05
def REG_FDEVLSB : Nat := 0x06
def REG_PACKETCONFIG1 : Nat := 0x37
def REG_PAYLOADLENGTH : Nat := 0x38
def REG_NODEADRS : Nat := 0x39
def REG_BROADCASTADRS : Nat := 0x3A
def REG_FIFOTHRESH : Nat := 0x3C
def REG_PACKETCONFIG2 : Nat := 0x3D
def REG_TESTPA1 : Nat := 0x5A
def REG_TESTPA2 : Nat := 0x5C
def REG_TESTDAGC : Nat := 0x6F

-- Operating modes (bits 4:2 of OPMODE).
def MODE_SLEEP : Nat := 0x00
def MODE_STANDBY : Nat := 0x04
def MODE_FS : Nat := 0x08
def MODE_TX : Nat := 0x0C
def MODE_RX : Nat := 0x10

/-- Read a single register: consumes one oracle byte, logs the read. -/
def rdReg (c : Chip) (a : Nat) (s : St) : Nat × St :=
  (c s.rc a % 256, { s with rc := s.rc + 1, log := s.log ++ [Act.readReg a] })

/-- Write a single register (spi.xfer2 of address-with-high-bit and value). -/
def wrReg (a v : Nat) (s : St) : St :=
  { s with log := s.log ++ [Act.writeReg a v] }

/-- Burst-write the FIFO in one SPI transaction. -/
def wrFifo (d : List Nat) (s : St) : St :=
  { s with log := s.log ++ [Act.writeFifo d] }

/-- Burst-read count bytes from the FIFO in one SPI transaction. -/
def readFifoN (c : Chip) (n : Nat) (s : St) : List Nat × St :=
  ((List.range n).map (fun i => c (s.rc + i) REG_FIFO % 256),
   { s with rc := s.rc + n, log := s.log ++ [Act.readFifoN n] })

/-- time.sleep of the given milliseconds. -/
def sleepMs (k : Nat) (s : St) : St :=
  { s with now := s.now + k, log := s.log ++ [Act.sleep k] }

/-- Record an error or warning print. -/
def logErr (s : St) : St :=
  { s with log := s.log ++ [Act.logErr] }

/-- Wall-clock cost of one iteration of a sleepless busy-wait loop (1 ms,
standing for the SPI transfer time of the read inside the loop). -/
def busyTick (s : St) : St :=
  { s with now := s.now + 1 }

/-- Hardware reset: toggle the reset line with two 100 ms settle sleeps. -/
def hwReset (s : St) : St :=
  sleepMs 100 (sleepMs 100 { s with log := s.log ++ [Act.reset] })

/-- True for actions that modify chip registers or the FIFO. -/
def Act.isWrite : Act → Bool
  | Act.writeReg _ _ => true
  | Act.writeFifo _ => true
  | _ => false

/-- Value of the last write to the given register address in the log. -/
def lastWriteTo (a : Nat) (l : List Act) : Option Nat :=
  l.reverse.findSome? (fun x =>
    match x with
    | Act.writeReg b v => if b = a then some v else none
    | _ => none)

/-- Payloads of the FIFO burst writes in the log, in order. -/
def fifoFrames (l : List Act) : List (List Nat) :=
  l.filterMap (fun x =>
    match x with
    | Act.writeFifo d => some d
    | _ => none)

/-- Python int(): truncation toward zero on rationals.  A rational is
num / den in lowest terms with den positive, and Int.div truncates
toward zero. -/
def truncQ (q : ℚ) : ℤ :=
  q.num.tdiv q.den

-- FXOSC = 32 MHz; FSTEP = FXOSC / 2^19 (same constant in all scripts,
-- hard-coded as 61.03515625 in integrated_avionics.py).
def FXOSC : ℚ := 32000000
def FSTEP : ℚ := FXOSC / 524288

/-- 24-bit frequency word: frf = int(freq_mhz * 1e6 / FSTEP). -/
def encodeFrf (freq_mhz : ℚ) : ℤ :=
  truncQ (freq_mhz * 1000000 / FSTEP)

/-- Achieved frequency in Hz recomputed from the three read-back bytes:
actual_frf = (msb << 16) | (mid << 8) | lsb, times FSTEP. -/
def decodeFrf (msb mid lsb : Nat) : ℚ :=
  (((msb <<< 16) ||| (mid <<< 8) ||| lsb : Nat) : ℚ) * FSTEP

/-- RSSI register byte to dBm: -(raw // 2) as in groundstation_rx.py. -/
def rssiToDbm (raw : Nat) : Int :=
  -(Int.ofNat (raw / 2))

namespace AvionicsTx

-- Module-level transmission settings of avionics_tx.py.
def TX_POWER : Int := 20
def NODE_ADDRESS : Nat := 0x01
def BROADCAST_ADDR : Nat := 0xFF

/-- RFM69._set_tx_power of avionics_tx.py.  The power is clamped to
[-2, 20] dBm first; all register-value arithmetic below is on clamped,
hence nonnegative-shifted, values, so Nat bitwise-or matches Python. -/
def set_tx_power (is_high_power : Bool) (power_dbm : Int) (s : St) : St :=
  let p : Int := max (-2) (min 20 power_dbm)
  if is_high_power then
    if 18 ≤ p then
      wrReg REG_TESTPA2 0x7C
        (wrReg REG_TESTPA1 0x5D
          (wrReg REG_PALEVEL (0x60 ||| (p + 11).toNat)
            (wrReg REG_OCP 0x0F s)))
    else
      wrReg REG_TESTPA2 0x70
        (wrReg REG_TESTPA1 0x55
          (wrReg REG_PALEVEL (0x60 ||| (p + 14).toNat)
            (wrReg REG_OCP 0x1A s)))
  else
    wrReg REG_PALEVEL (0x80 ||| (p + 18).toNat) s

/-- RFM69._set_frequency of avionics_tx.py: write the three frequency
bytes MSB-first, then read them back for the diagnostic print. -/
def set_frequency (c : Chip) (freq_mhz : ℚ) (s : St) : St :=
  let frf : Nat := (encodeFrf freq_mhz).toNat
  let s := wrReg REG_FRFMSB ((frf >>> 16) &&& 0xFF) s
  let s := wrReg REG_FRFMID ((frf >>> 8) &&& 0xFF) s
  let s := wrReg REG_FRFLSB (frf &&& 0xFF) s
  (rdReg c REG_FRFLSB (rdReg c REG_FRFMID (rdReg c REG_FRFMSB s).2).2).2

/-- Mode-ready poll of RFM69._set_mode: while bit 7 of IRQFLAGS1 is clear,
check the 1-second deadline (logging the error, with one extra IRQFLAGS1
read for the print, and breaking if elapsed) and sleep 1 ms.  Callers pass
fuel 1002, which the deadline bound in theorem poll_spec below shows can
never run out. -/
def pollModeReady (c : Chip) (fuel deadline : Nat) (s : St) : St :=
  match fuel with
  | 0 => s
  | fuel + 1 =>
    if (rdReg c REG_IRQFLAGS1 s).1 &&& 0x80 ≠ 0 then (rdReg c REG_IRQFLAGS1 s).2
    else if s.now > deadline then
      logErr (rdReg c REG_IRQFLAGS1 (rdReg c REG_IRQFLAGS1 s).2).2
    else pollModeReady c fuel deadline (sleepMs 1 (rdReg c REG_IRQFLAGS1 s).2)

/-- RFM69._set_mode of avionics_tx.py. -/
def set_mode (c : Chip) (is_high_power : Bool) (s : St) (mode : Nat) : St :=
  if mode = s.mode then s
  else
    let s1 := if s.mode = MODE_TX ∧ is_high_power = true then
        wrReg REG_TESTPA2 0x70 (wrReg REG_TESTPA1 0x55 s)
      else s
    let s2 := wrReg REG_OPMODE mode s1
    let s3 := if mode = MODE_TX ∧ is_high_power = true ∧ 18 ≤ TX_POWER then
        wrReg REG_TESTPA2 0x7C (wrReg REG_TESTPA1 0x5D s2)
      else s2
    let s4 := pollModeReady c 1002 (s3.now + 1000) s3
    { s4 with mode := mode }

/-- Configuration table of RFM69._init_radio in avionics_tx.py. -/
def configTable : List (Nat × Nat) :=
  [(REG_DATAMODUL, 0x00),
   (REG_BITRATEMSB, 0x1A), (REG_BITRATELSB, 0x0B),
   (REG_FDEVMSB, 0x00), (REG_FDEVLSB, 0x52),
   (REG_RXBW, 0x55), (REG_AFCBW, 0x8B),
   (0x2C, 0x00), (0x2D, 0x04),
   (REG_SYNCCONFIG, 0x88), (REG_SYNCVALUE1, 0x2D), (REG_SYNCVALUE2, 0xD4),
   (REG_PACKETCONFIG1, 0x90),
   (REG_PAYLOADLENGTH, 66),
   (REG_FIFOTHRESH, 0x8F),
   (REG_PACKETCONFIG2, 0x02),
   (REG_TESTDAGC, 0x30),
   (REG_LNA, 0x88)]

/-- Write one config entry and read it back, warning on mismatch unless
the register is the auto-clearing IRQFLAGS2. -/
def applyConfigEntry (c : Chip) (s : St) (rv : Nat × Nat) : St :=
  let s := wrReg rv.1 rv.2 s
  let p := rdReg c rv.1 s
  if p.1 ≠ rv.2 ∧ rv.1 ≠ REG_IRQFLAGS2 then logErr p.2 else p.2

/-- RFM69._init_radio of avionics_tx.py: standby write, settle sleep,
verified config table, frequency, transmit power, node addresses. -/
def init_radio (c : Chip) (is_high_power : Bool) (freq_mhz : ℚ) (s : St) : St :=
  let s := wrReg REG_OPMODE MODE_STANDBY s
  let s := sleepMs 10 s
  let s := configTable.foldl (applyConfigEntry c) s
  let s := set_frequency c freq_mhz s
  let s := set_tx_power is_high_power TX_POWER s
  let s := wrReg REG_NODEADRS NODE_ADDRESS s
  wrReg REG_BROADCASTADRS BROADCAST_ADDR s

/-- RFM69.__init__ of avionics_tx.py after the GPIO / SPI setup: hardware
reset, version-register identity check (raising, modelled as the error
branch carrying the offending byte and the state at the raise), then
radio settings. -/
def construct (c : Chip) (is_high_power : Bool) (freq_mhz : ℚ) (s : St) :
    Except (Nat × St) St :=
  let s := hwReset s
  let p := rdReg c REG_VERSION s
  if p.1 ≠ 0x24 then Except.error (p.1, p.2)
  else Except.ok (init_radio c is_high_power freq_mhz p.2)

/-- Packet-sent poll of RFM69.send: loop reading IRQFLAGS2 until bit 3
(PacketSent) is set; on the 2-second deadline read IRQFLAGS1 for the
print, log the failure, return to standby and return False; on success
return to standby and return True.  Callers pass fuel 2002. -/
def sendWait (c : Chip) (is_high_power : Bool) (fuel deadline : Nat) (s : St) :
    Bool × St :=
  match fuel with
  | 0 => (false, s)
  | fuel + 1 =>
    if (rdReg c REG_IRQFLAGS2 s).1 &&& 0x08 ≠ 0 then
      (true, set_mode c is_high_power (rdReg c REG_IRQFLAGS2 s).2 MODE_STANDBY)
    else if s.now > deadline then
      (false, set_mode c is_high_power
        (logErr (rdReg c REG_IRQFLAGS1 (rdReg c REG_IRQFLAGS2 s).2).2)
        MODE_STANDBY)
    else sendWait c is_high_power fuel deadline
      (sleepMs 1 (rdReg c REG_IRQFLAGS2 s).2)

/-- RFM69.send of avionics_tx.py, on an already-encoded byte list. -/
def send (c : Chip) (is_high_power : Bool) (s : St) (message : List Nat)
    (debug : Bool) : Bool × St :=
  let message := message.take 60
  let s := set_mode c is_high_power s MODE_STANDBY
  let s := sleepMs 5 s
  let s := if debug then (rdReg c REG_IRQFLAGS2 (rdReg c REG_IRQFLAGS1 s).2).2 else s
  let payload := message.length :: message
  let s := wrFifo payload s
  let s := if debug then (rdReg c REG_IRQFLAGS2 s).2 else s
  let s := set_mode c is_high_power s MODE_TX
  let s := if debug then (rdReg c REG_IRQFLAGS2 (rdReg c REG_IRQFLAGS1 s).2).2 else s
  sendWait c is_high_power 2002 (s.now + 2000) s

end AvionicsTx

namespace GroundstationRx

def NODE_ADDRESS : Nat := 0x02
def BROADCAST_ADDR : Nat := 0xFF

/-- Mode-ready poll of RFM69._set_mode in groundstation_rx.py: same loop
as the avionics one but the deadline print performs no extra read. -/
def pollModeReady (c : Chip) (fuel deadline : Nat) (s : St) : St :=
  match fuel with
  | 0 => s
  | fuel + 1 =>
    if (rdReg c REG_IRQFLAGS1 s).1 &&& 0x80 ≠ 0 then (rdReg c REG_IRQFLAGS1 s).2
    else if s.now > deadline then logErr (rdReg c REG_IRQFLAGS1 s).2
    else pollModeReady c fuel deadline (sleepMs 1 (rdReg c REG_IRQFLAGS1 s).2)

/-- RFM69._set_mode of groundstation_rx.py (no high-power boost logic). -/
def set_mode (c : Chip) (s : St) (mode : Nat) : St :=
  if mode = s.mode then s
  else
    let s1 := wrReg REG_OPMODE mode s
    let s2 := pollModeReady c 1002 (s1.now + 1000) s1
    { s2 with mode := mode }

/-- RSSI-done poll of RFM69.read_rssi: while bit 1 of RSSICONFIG is
clear, break on the 100 ms deadline, else sleep 1 ms. -/
def rssiWait (c : Chip) (fuel deadline : Nat) (s : St) : St :=
  match fuel with
  | 0 => s
  | fuel + 1 =>
    if (rdReg c REG_RSSICONFIG s).1 &&& 0x02 ≠ 0 then (rdReg c REG_RSSICONFIG s).2
    else if s.now > deadline then (rdReg c REG_RSSICONFIG s).2
    else rssiWait c fuel deadline (sleepMs 1 (rdReg c REG_RSSICONFIG s).2)

/-- RFM69.read_rssi of groundstation_rx.py: trigger a measurement, wait
for RSSI done, read and convert the value register. -/
def read_rssi (c : Chip) (s : St) : Int × St :=
  let s := wrReg REG_RSSICONFIG 0x01 s
  let s := rssiWait c 102 (s.now + 100) s
  let p := rdReg c REG_RSSIVALUE s
  (rssiToDbm p.1, p.2)

/-- Configuration table of RFM69._init_radio in groundstation_rx.py. -/
def configTable : List (Nat × Nat) :=
  [(REG_DATAMODUL, 0x00),
   (REG_BITRATEMSB, 0x1A), (REG_BITRATELSB, 0x0B),
   (REG_FDEVMSB, 0x00), (REG_FDEVLSB, 0x52),
   (REG_RXBW, 0x55), (REG_AFCBW, 0x8B),
   (0x2C, 0x00), (0x2D, 0x04),
   (REG_SYNCCONFIG, 0x88), (REG_SYNCVALUE1, 0x2D), (REG_SYNCVALUE2, 0xD4),
   (REG_PACKETCONFIG1, 0x90),
   (REG_PAYLOADLENGTH, 66),
   (REG_FIFOTHRESH, 0x8F),
   (REG_PACKETCONFIG2, 0x02),
   (REG_TESTDAGC, 0x30),
   (REG_LNA, 0x88),
   (REG_RSSITHRESH, 0xE4)]

/-- Write one config entry and read it back, warning on any mismatch
(groundstation_rx.py has no IRQFLAGS2 exemption). -/
def applyConfigEntry (c : Chip) (s : St) (rv : Nat × Nat) : St :=
  let s := wrReg rv.1 rv.2 s
  let p := rdReg c rv.1 s
  if p.1 ≠ rv.2 then logErr p.2 else p.2

/-- RFM69._set_frequency of groundstation_rx.py (same code as the
avionics one). -/
def set_frequency (c : Chip) (freq_mhz : ℚ) (s : St) : St :=
  let frf : Nat := (encodeFrf freq_mhz).toNat
  let s := wrReg REG_FRFMSB ((frf >>> 16) &&& 0xFF) s
  let s := wrReg REG_FRFMID ((frf >>> 8) &&& 0xFF) s
  let s := wrReg REG_FRFLSB (frf &&& 0xFF) s
  (rdReg c REG_FRFLSB (rdReg c REG_FRFMID (rdReg c REG_FRFMSB s).2).2).2

/-- RFM69._init_radio of groundstation_rx.py: standby write, settle
sleep, verified config table, frequency, node addresses, and explicit
high-power-boost disable for receive. -/
def init_radio (c : Chip) (freq_mhz : ℚ) (s : St) : St :=
  let s := wrReg REG_OPMODE MODE_STANDBY s
  let s := sleepMs 10 s
  let s := configTable.foldl (applyConfigEntry c) s
  let s := set_frequency c freq_mhz s
  let s := wrReg REG_NODEADRS NODE_ADDRESS s
  let s := wrReg REG_BROADCASTADRS BROADCAST_ADDR s
  let s := wrReg REG_TESTPA1 0x55 s
  wrReg REG_TESTPA2 0x70 s

/-- RFM69.__init__ of groundstation_rx.py after the GPIO / SPI setup. -/
def construct (c : Chip) (freq_mhz : ℚ) (s : St) : Except (Nat × St) St :=
  let s := hwReset s
  let p := rdReg c REG_VERSION s
  if p.1 ≠ 0x24 then Except.error (p.1, p.2)
  else Except.ok (init_radio c freq_mhz p.2)

/-- Outcome of one iteration of the RFM69.receive while-loop: either the
call returns (payload or timeout), or the loop continues with an updated
last-RSSI-print time and state. -/
inductive StepRes where
  | done : Option (List Nat) → St → StepRes
  | next : Nat → St → StepRes
deriving DecidableEq, Repr

/-- State carried in a StepRes. -/
def StepRes.st : StepRes → St
  | StepRes.done _ s => s
  | StepRes.next _ s => s

/-- Tail of one receive-loop iteration, shared by the no-payload and the
corrupt-length paths: the periodic RSSI debug print (read_rssi plus an
IRQFLAGS1 read) every 2 s, the timeout check against the time captured at
the top of the iteration, and the 10 ms sleep. -/
def stepTail (c : Chip) (timeoutMs startTime lastRssiTime cur : Nat) (s : St) :
    StepRes :=
  let r := if cur - lastRssiTime > 2000 then
      (cur, (rdReg c REG_IRQFLAGS1 (read_rssi c s).2).2)
    else (lastRssiTime, s)
  if cur - startTime > timeoutMs then StepRes.done none (set_mode c r.2 MODE_STANDBY)
  else StepRes.next r.1 (sleepMs 10 r.2)

/-- One iteration of the RFM69.receive while-loop: read IRQFLAGS2; on
PayloadReady read RSSI (stored in last_rssi) then the FIFO length byte;
a valid length (0 < n <= 66) burst-reads the payload, goes to standby and
returns it; an invalid one warns and cycles standby -> receive to flush
the FIFO; otherwise fall through to the iteration tail. -/
def receiveStep (c : Chip) (timeoutMs startTime lastRssiTime : Nat) (s : St) :
    StepRes :=
  let cur := s.now
  let p := rdReg c REG_IRQFLAGS2 s
  if p.1 &&& 0x04 ≠ 0 then
    let q := rdReg c REG_RSSIVALUE p.2
    let s2 := { q.2 with last_rssi := rssiToDbm q.1 }
    let ln := rdReg c REG_FIFO s2
    if 0 < ln.1 ∧ ln.1 ≤ 66 then
      let pay := readFifoN c ln.1 ln.2
      StepRes.done (some pay.1) (set_mode c pay.2 MODE_STANDBY)
    else
      stepTail c timeoutMs startTime lastRssiTime cur
        (set_mode c (set_mode c (logErr ln.2) MODE_STANDBY) MODE_RX)
  else stepTail c timeoutMs startTime lastRssiTime cur p.2

/-- The RFM69.receive while-loop.  Fuel timeoutMs / 10 + 2 suffices since
every continuing iteration ends in a 10 ms sleep (theorem gs_receive_total
below); the deadline check inside the iteration is what actually ends the
loop. -/
def receiveLoop (c : Chip) (timeoutMs startTime : Nat) (fuel lastRssiTime : Nat)
    (s : St) : Option (Option (List Nat) × St) :=
  match fuel with
  | 0 => none
  | fuel + 1 =>
    match receiveStep c timeoutMs startTime lastRssiTime s with
    | StepRes.done r s2 => some (r, s2)
    | StepRes.next lrt s2 => receiveLoop c timeoutMs startTime fuel lrt s2

/-- RFM69.receive of groundstation_rx.py: enter receive mode and loop. -/
def receive (c : Chip) (s : St) (timeoutMs : Nat) :
    Option (Option (List Nat) × St) :=
  let s := set_mode c s MODE_RX
  receiveLoop c timeoutMs s.now (timeoutMs / 10 + 2) 0 s

end GroundstationRx

namespace IntegratedAvionics

/-- Standby wait of RFM69.send in integrated_avionics.py: a busy loop
with no deadline at all (while not ready: pass); fuel exhaustion models
its possible divergence. -/
def standbyWait (c : Chip) (fuel : Nat) (s : St) : Option St :=
  match fuel with
  | 0 => none
  | fuel + 1 =>
    if (rdReg c REG_IRQFLAGS1 s).1 &&& 0x80 ≠ 0 then some (rdReg c REG_IRQFLAGS1 s).2
    else standbyWait c fuel (rdReg c REG_IRQFLAGS1 s).2

/-- PacketSent wait of RFM69.send in integrated_avionics.py: busy loop on
bit 3 of IRQFLAGS2 with a 1-second deadline that returns False directly
(no standby write); each sleepless iteration costs one busyTick. -/
def packetWait (c : Chip) (fuel start : Nat) (s : St) : Option (Bool × St) :=
  match fuel with
  | 0 => none
  | fuel + 1 =>
    if (rdReg c REG_IRQFLAGS2 s).1 &&& 0x08 ≠ 0 then some (true, (rdReg c REG_IRQFLAGS2 s).2)
    else if s.now - start > 1000 then some (false, (rdReg c REG_IRQFLAGS2 s).2)
    else packetWait c fuel start (busyTick (rdReg c REG_IRQFLAGS2 s).2)

/-- RFM69.send of integrated_avionics.py, on an already-encoded byte
list: standby write, ready busy-wait, FIFO burst of the unshortened
length-prefixed data, transmit write, PacketSent wait; only the success
path returns to standby. -/
def send (c : Chip) (fuel : Nat) (s : St) (data : List Nat) :
    Option (Bool × St) :=
  let s := wrReg REG_OPMODE MODE_STANDBY s
  match standbyWait c fuel s with
  | none => none
  | some s =>
    let s := wrFifo (data.length :: data) s
    let s := wrReg REG_OPMODE MODE_TX s
    match packetWait c fuel s.now s with
    | none => none
    | some (false, s) => some (false, s)
    | some (true, s) => some (true, wrReg REG_OPMODE MODE_STANDBY s)

end IntegratedAvionics

/-- Log fragments containing no chip-register or FIFO writes. -/
def noWrites (l : List Act) : Prop :=
  ∀ a ∈ l, a.isWrite = false

-- Concrete handle states and chip oracles used by the closed instance
-- theorems below.
def st0 : St := { mode := MODE_STANDBY, now := 0, rc := 0, last_rssi := 0, log := [] }
def stTx : St := { mode := MODE_TX, now := 0, rc := 0, last_rssi := 0, log := [] }
def stRx : St := { mode := MODE_RX, now := 0, rc := 0, last_rssi := 0, log := [] }
def cZero : Chip := fun _ _ => 0
def cAllSet : Chip := fun _ _ => 0xFF
def cModeReadyOnly : Chip := fun _ a => if a = REG_IRQFLAGS1 then 0x80 else 0
def cRxGood : Chip := fun _ a =>
  if a = REG_IRQFLAGS1 then 0x80
  else if a = REG_IRQFLAGS2 then 0x04
  else if a = REG_RSSIVALUE then 200
  else 5
def cRxBad : Chip := fun _ a =>
  if a = REG_IRQFLAGS1 then 0x80
  else if a = REG_IRQFLAGS2 then 0x04
  else 200

theorem lastWriteTo_append (a : Nat) (l m : List Act) :
    lastWriteTo a (l ++ m) = (lastWriteTo a m).or (lastWriteTo a l) := by
  simp [lastWriteTo, List.reverse_append, List.findSome?_append]

theorem findSomeWrite_eq_none (a : Nat) (t : List Act) (h : noWrites t) :
    lastWriteTo a t = none := by
  rw [lastWriteTo, List.findSome?_eq_none]
  intro x hx
  have hw := h x (List.mem_reverse.mp hx)
  cases x <;> simp_all [Act.isWrite]

theorem lastWriteTo_append_noWrites (a : Nat) (l t : List Act) (h : noWrites t) :
    lastWriteTo a (l ++ t) = lastWriteTo a l := by
  rw [lastWriteTo_append, findSomeWrite_eq_none a t h, Option.none_or]

theorem fifoFrames_append (l m : List Act) :
    fifoFrames (l ++ m) = fifoFrames l ++ fifoFrames m := by
  simp [fifoFrames]

theorem fifoFrames_of_noWrites (t : List Act) (h : noWrites t) :
    fifoFrames t = [] := by
  rw [fifoFrames, List.filterMap_eq_nil]
  intro x hx
  have hw := h x hx
  cases x <;> simp_all [Act.isWrite]

theorem noWrites_append (l m : List Act) (hl : noWrites l) (hm : noWrites m) :
    noWrites (l ++ m) := by
  intro a ha
  rcases List.mem_append.mp ha with h | h
  · exact hl a h
  · exact hm a h

theorem fifoFrames_nil : fifoFrames [] = [] := rfl

theorem fifoFrames_cons_readReg (a : Nat) (l : List Act) :
    fifoFrames (Act.readReg a :: l) = fifoFrames l := rfl

theorem fifoFrames_cons_sleep (k : Nat) (l : List Act) :
    fifoFrames (Act.sleep k :: l) = fifoFrames l := rfl

theorem fifoFrames_cons_logErr (l : List Act) :
    fifoFrames (Act.logErr :: l) = fifoFrames l := rfl

theorem fifoFrames_cons_reset (l : List Act) :
    fifoFrames (Act.reset :: l) = fifoFrames l := rfl

theorem fifoFrames_cons_writeReg (a v : Nat) (l : List Act) :
    fifoFrames (Act.writeReg a v :: l) = fifoFrames l := rfl

theorem fifoFrames_cons_writeFifo (d : List Nat) (l : List Act) :
    fifoFrames (Act.writeFifo d :: l) = d :: fifoFrames l := rfl

theorem fifoFrames_cons_readFifoN (n : Nat) (l : List Act) :
    fifoFrames (Act.readFifoN n :: l) = fifoFrames l := rfl

namespace AvionicsTx

theorem poll_spec (c : Chip) (fuel deadline : Nat) : ∀ s : St,
    ∃ t n k, pollModeReady c fuel deadline s =
      { mode := s.mode, now := n, rc := k, last_rssi := s.last_rssi,
        log := s.log ++ t } ∧
      noWrites t ∧ s.now ≤ n ∧ n ≤ max s.now (deadline + 1) := by
  induction fuel with
  | zero =>
    intro s
    refine ⟨[], s.now, s.rc, ?_, ?_, le_refl _, le_max_left _ _⟩
    · simp [pollModeReady]
    · simp [noWrites]
  | succ fuel ih =>
    intro s
    simp only [pollModeReady]
    by_cases h1 : (rdReg c REG_IRQFLAGS1 s).1 &&& 0x80 ≠ 0
    · rw [if_pos h1]
      refine ⟨[Act.readReg REG_IRQFLAGS1], s.now, s.rc + 1, ?_, ?_, le_refl _,
        le_max_left _ _⟩
      · simp [rdReg]
      · simp [noWrites, Act.isWrite]
    · rw [if_neg h1]
      by_cases h2 : s.now > deadline
      · rw [if_pos h2]
        refine ⟨[Act.readReg REG_IRQFLAGS1, Act.readReg REG_IRQFLAGS1, Act.logErr],
          s.now, s.rc + 2, ?_, ?_, le_refl _, le_max_left _ _⟩
        · simp [rdReg, logErr]
        · simp [noWrites, Act.isWrite]
      · rw [if_neg h2]
        obtain ⟨t, n, k, heq, hnw, hge, hle⟩ := ih (sleepMs 1 (rdReg c REG_IRQFLAGS1 s).2)
        refine ⟨[Act.readReg REG_IRQFLAGS1, Act.sleep 1] ++ t, n, k, ?_, ?_, ?_, ?_⟩
        · rw [heq]; simp [rdReg, sleepMs]
        · refine noWrites_append _ _ ?_ hnw
          simp [noWrites, Act.isWrite]
        · have hsn : (sleepMs 1 (rdReg c REG_IRQFLAGS1 s).2).now = s.now + 1 := by
            simp [rdReg, sleepMs]
          rw [hsn] at hge
          omega
        · have hsn : (sleepMs 1 (rdReg c REG_IRQFLAGS1 s).2).now = s.now + 1 := by
            simp [rdReg, sleepMs]
          rw [hsn] at hle
          omega

theorem set_mode_eq_poll (c : Chip) (ihp : Bool) (s : St) (m : Nat) (h : m ≠ s.mode) :
    set_mode c ihp s m =
      { pollModeReady c 1002 (s.now + 1000)
          { mode := s.mode, now := s.now, rc := s.rc, last_rssi := s.last_rssi,
            log := s.log ++
              ((if s.mode = MODE_TX ∧ ihp = true then
                [Act.writeReg REG_TESTPA1 0x55, Act.writeReg REG_TESTPA2 0x70] else []) ++
               ([Act.writeReg REG_OPMODE m] ++
                (if m = MODE_TX ∧ ihp = true ∧ 18 ≤ TX_POWER then
                  [Act.writeReg REG_TESTPA1 0x5D, Act.writeReg REG_TESTPA2 0x7C] else []))) }
        with mode := m } := by
  simp only [set_mode, wrReg]
  rw [if_neg h]
  split_ifs with hA hB hB <;> simp [List.append_assoc]

theorem set_mode_spec (c : Chip) (ihp : Bool) (s : St) (m : Nat) (h : m ≠ s.mode) :
    ∃ t n k, set_mode c ihp s m =
      { mode := m, now := n, rc := k, last_rssi := s.last_rssi,
        log := s.log ++
          (if s.mode = MODE_TX ∧ ihp = true then
            [Act.writeReg REG_TESTPA1 0x55, Act.writeReg REG_TESTPA2 0x70] else []) ++
          [Act.writeReg REG_OPMODE m] ++
          (if m = MODE_TX ∧ ihp = true ∧ 18 ≤ TX_POWER then
            [Act.writeReg REG_TESTPA1 0x5D, Act.writeReg REG_TESTPA2 0x7C] else []) ++
          t } ∧
      noWrites t ∧ s.now ≤ n ∧ n ≤ s.now + 1001 := by
  have hx := set_mode_eq_poll c ihp s m h
  obtain ⟨t, n, k, heq, hnw, hge, hle⟩ := poll_spec c 1002 (s.now + 1000)
    { mode := s.mode, now := s.now, rc := s.rc, last_rssi := s.last_rssi,
      log := s.log ++
        ((if s.mode = MODE_TX ∧ ihp = true then
          [Act.writeReg REG_TESTPA1 0x55, Act.writeReg REG_TESTPA2 0x70] else []) ++
         ([Act.writeReg REG_OPMODE m] ++
          (if m = MODE_TX ∧ ihp = true ∧ 18 ≤ TX_POWER then
            [Act.writeReg REG_TESTPA1 0x5D, Act.writeReg REG_TESTPA2 0x7C] else []))) }
  rw [hx, heq]
  refine ⟨t, n, k, ?_, hnw, by simpa using hge, ?_⟩
  · simp [List.append_assoc]
  · simp only [St.now] at hle ⊢
    omega

end AvionicsTx

namespace AvionicsTx

theorem set_mode_mode (c : Chip) (ihp : Bool) (s : St) (m : Nat) :
    (set_mode c ihp s m).mode = m := by
  by_cases h : m = s.mode
  · simp [set_mode, h]
  · obtain ⟨t, n, k, heq, _⟩ := set_mode_spec c ihp s m h
    rw [heq]

theorem set_mode_rssi (c : Chip) (ihp : Bool) (s : St) (m : Nat) :
    (set_mode c ihp s m).last_rssi = s.last_rssi := by
  by_cases h : m = s.mode
  · simp [set_mode, h]
  · obtain ⟨t, n, k, heq, _⟩ := set_mode_spec c ihp s m h
    rw [heq]

theorem set_mode_now_ge (c : Chip) (ihp : Bool) (s : St) (m : Nat) :
    s.now ≤ (set_mode c ihp s m).now := by
  by_cases h : m = s.mode
  · simp [set_mode, h]
  · obtain ⟨t, n, k, heq, _, hge, _⟩ := set_mode_spec c ihp s m h
    rw [heq]
    exact hge

theorem set_mode_now_le (c : Chip) (ihp : Bool) (s : St) (m : Nat) :
    (set_mode c ihp s m).now ≤ s.now + 1001 := by
  by_cases h : m = s.mode
  · simp [set_mode, h]
  · obtain ⟨t, n, k, heq, _, _, hle⟩ := set_mode_spec c ihp s m h
    rw [heq]
    exact hle

theorem set_mode_lastOpmode (c : Chip) (ihp : Bool) (s : St) (m : Nat)
    (h : m ≠ s.mode) :
    lastWriteTo REG_OPMODE (set_mode c ihp s m).log = some m := by
  obtain ⟨t, n, k, heq, hnw, _, _⟩ := set_mode_spec c ihp s m h
  rw [heq]
  show lastWriteTo REG_OPMODE (_ ++ _ ++ _ ++ _ ++ t) = some m
  rw [lastWriteTo_append_noWrites _ _ t hnw, lastWriteTo_append, lastWriteTo_append]
  have h2 : lastWriteTo REG_OPMODE
      (if m = MODE_TX ∧ ihp = true ∧ 18 ≤ TX_POWER then
        [Act.writeReg REG_TESTPA1 0x5D, Act.writeReg REG_TESTPA2 0x7C] else []) = none := by
    split_ifs <;> simp [lastWriteTo, REG_TESTPA1, REG_TESTPA2, REG_OPMODE]
  have h3 : lastWriteTo REG_OPMODE [Act.writeReg REG_OPMODE m] = some m := by
    simp [lastWriteTo]
  rw [h2, h3]
  rfl

theorem set_mode_fifoFrames (c : Chip) (ihp : Bool) (s : St) (m : Nat) :
    fifoFrames (set_mode c ihp s m).log = fifoFrames s.log := by
  by_cases h : m = s.mode
  · simp [set_mode, h]
  · obtain ⟨t, n, k, heq, hnw, _, _⟩ := set_mode_spec c ihp s m h
    rw [heq]
    show fifoFrames (_ ++ _ ++ _ ++ _ ++ t) = fifoFrames s.log
    rw [fifoFrames_append, fifoFrames_of_noWrites t hnw,
      fifoFrames_append, fifoFrames_append, fifoFrames_append]
    split_ifs <;> simp [fifoFrames]

theorem poll_timeout (c : Chip)
    (htz : ∀ i, c i REG_IRQFLAGS1 % 256 &&& 0x80 = 0) :
    ∀ (fuel deadline : Nat) (s : St), s.now + fuel = deadline + 2 →
      s.now ≤ deadline + 1 →
      Act.logErr ∈ (pollModeReady c fuel deadline s).log := by
  intro fuel
  induction fuel with
  | zero => intro deadline s hf hb; omega
  | succ fuel ih =>
    intro deadline s hf hb
    simp only [pollModeReady]
    have h1 : ¬((rdReg c REG_IRQFLAGS1 s).1 &&& 0x80 ≠ 0) := by
      simp [rdReg, htz s.rc]
    rw [if_neg h1]
    by_cases h2 : s.now > deadline
    · rw [if_pos h2]
      simp [rdReg, logErr]
    · rw [if_neg h2]
      have := ih deadline (sleepMs 1 (rdReg c REG_IRQFLAGS1 s).2)
        (by simp [rdReg, sleepMs]; omega) (by simp [rdReg, sleepMs]; omega)
      exact this

theorem set_mode_timeout (c : Chip) (ihp : Bool) (s : St) (m : Nat)
    (h : m ≠ s.mode) (htz : ∀ i, c i REG_IRQFLAGS1 % 256 &&& 0x80 = 0) :
    Act.logErr ∈ (set_mode c ihp s m).log := by
  rw [set_mode_eq_poll c ihp s m h]
  show Act.logErr ∈ (pollModeReady c 1002 (s.now + 1000) _).log
  exact poll_timeout c htz 1002 (s.now + 1000) _
    (by show s.now + 1002 = s.now + 1000 + 2; omega)
    (by show s.now ≤ s.now + 1000 + 1; omega)

end AvionicsTx

namespace AvionicsTx

theorem sendWait_spec (c : Chip) (ihp : Bool) : ∀ (fuel deadline : Nat) (s : St),
    s.mode = MODE_TX → s.now + fuel = deadline + 2 → s.now ≤ deadline + 1 →
    (sendWait c ihp fuel deadline s).2.mode = MODE_STANDBY ∧
    lastWriteTo REG_OPMODE (sendWait c ihp fuel deadline s).2.log =
      some MODE_STANDBY ∧
    fifoFrames (sendWait c ihp fuel deadline s).2.log = fifoFrames s.log := by
  intro fuel
  induction fuel with
  | zero => intro deadline s hm hf hb; omega
  | succ fuel ih =>
    intro deadline s hm hf hb
    simp only [sendWait]
    by_cases h1 : (rdReg c REG_IRQFLAGS2 s).1 &&& 0x08 ≠ 0
    · rw [if_pos h1]
      have hmode : (rdReg c REG_IRQFLAGS2 s).2.mode = MODE_TX := by
        simp [rdReg, hm]
      have hne : MODE_STANDBY ≠ (rdReg c REG_IRQFLAGS2 s).2.mode := by
        rw [hmode]; decide
      refine ⟨set_mode_mode c ihp _ _, set_mode_lastOpmode c ihp _ _ hne, ?_⟩
      rw [set_mode_fifoFrames]
      simp [rdReg, fifoFrames_append, fifoFrames]
    · rw [if_neg h1]
      by_cases h2 : s.now > deadline
      · rw [if_pos h2]
        have hmode : (logErr (rdReg c REG_IRQFLAGS1 (rdReg c REG_IRQFLAGS2 s).2).2).mode
            = MODE_TX := by
          simp [rdReg, logErr, hm]
        have hne : MODE_STANDBY ≠
            (logErr (rdReg c REG_IRQFLAGS1 (rdReg c REG_IRQFLAGS2 s).2).2).mode := by
          rw [hmode]; decide
        refine ⟨set_mode_mode c ihp _ _, set_mode_lastOpmode c ihp _ _ hne, ?_⟩
        rw [set_mode_fifoFrames]
        simp [rdReg, logErr, fifoFrames_append, fifoFrames]
      · rw [if_neg h2]
        have hrec := ih deadline (sleepMs 1 (rdReg c REG_IRQFLAGS2 s).2)
          (by simp [rdReg, sleepMs, hm])
          (by simp only [sleepMs, rdReg]; show s.now + 1 + fuel = deadline + 2; omega)
          (by simp only [sleepMs, rdReg]; show s.now + 1 ≤ deadline + 1; omega)
        refine ⟨hrec.1, hrec.2.1, ?_⟩
        rw [hrec.2.2]
        simp [rdReg, sleepMs, fifoFrames_append, fifoFrames]

theorem send_spec (c : Chip) (ihp : Bool) (s : St) (msg : List Nat) (dbg : Bool) :
    (send c ihp s msg dbg).2.mode = MODE_STANDBY ∧
    lastWriteTo REG_OPMODE (send c ihp s msg dbg).2.log = some MODE_STANDBY ∧
    fifoFrames (send c ihp s msg dbg).2.log =
      fifoFrames s.log ++ [(msg.take 60).length :: msg.take 60] := by
  simp only [send]
  set E1 := set_mode c ihp s MODE_STANDBY with hE1
  set E2 := sleepMs 5 E1 with hE2
  set E3 := if dbg then (rdReg c REG_IRQFLAGS2 (rdReg c REG_IRQFLAGS1 E2).2).2 else E2
    with hE3
  set E4 := wrFifo ((msg.take 60).length :: msg.take 60) E3 with hE4
  set E5 := if dbg then (rdReg c REG_IRQFLAGS2 E4).2 else E4 with hE5
  set E6 := set_mode c ihp E5 MODE_TX with hE6
  set E7 := if dbg then (rdReg c REG_IRQFLAGS2 (rdReg c REG_IRQFLAGS1 E6).2).2 else E6
    with hE7
  have hm7 : E7.mode = MODE_TX := by
    rw [hE7, hE6]
    by_cases hd : dbg <;> simp [hd, rdReg, set_mode_mode]
  have hf3 : fifoFrames E3.log = fifoFrames s.log := by
    rw [hE3, hE2, hE1]
    by_cases hd : dbg <;>
      simp [hd, rdReg, sleepMs, fifoFrames_append, fifoFrames_nil,
        fifoFrames_cons_readReg, fifoFrames_cons_sleep, set_mode_fifoFrames]
  have hf7 : fifoFrames E7.log =
      fifoFrames s.log ++ [(msg.take 60).length :: msg.take 60] := by
    rw [hE7]
    have hf4 : fifoFrames E4.log =
        fifoFrames s.log ++ [(msg.take 60).length :: msg.take 60] := by
      rw [hE4]
      simp [wrFifo, fifoFrames_append, fifoFrames_nil, fifoFrames_cons_writeFifo, hf3]
    have hf6 : fifoFrames E6.log =
        fifoFrames s.log ++ [(msg.take 60).length :: msg.take 60] := by
      rw [hE6, set_mode_fifoFrames, hE5]
      by_cases hd : dbg <;>
        simp [hd, rdReg, fifoFrames_append, fifoFrames_nil, fifoFrames_cons_readReg, hf4]
    by_cases hd : dbg <;>
      simp [hd, rdReg, fifoFrames_append, fifoFrames_nil, fifoFrames_cons_readReg, hf6]
  have hsw := sendWait_spec c ihp 2002 (E7.now + 2000) E7 hm7 (by omega) (by omega)
  exact ⟨hsw.1, hsw.2.1, by rw [hsw.2.2, hf7]⟩

end AvionicsTx

namespace GroundstationRx

theorem gs_poll_spec (c : Chip) (fuel deadline : Nat) : ∀ s : St,
    ∃ t n k, pollModeReady c fuel deadline s =
      { mode := s.mode, now := n, rc := k, last_rssi := s.last_rssi,
        log := s.log ++ t } ∧
      noWrites t ∧ s.now ≤ n ∧ n ≤ max s.now (deadline + 1) := by
  induction fuel with
  | zero =>
    intro s
    refine ⟨[], s.now, s.rc, ?_, ?_, le_refl _, le_max_left _ _⟩
    · simp [pollModeReady]
    · simp [noWrites]
  | succ fuel ih =>
    intro s
    simp only [pollModeReady]
    by_cases h1 : (rdReg c REG_IRQFLAGS1 s).1 &&& 0x80 ≠ 0
    · rw [if_pos h1]
      refine ⟨[Act.readReg REG_IRQFLAGS1], s.now, s.rc + 1, ?_, ?_, le_refl _,
        le_max_left _ _⟩
      · simp [rdReg]
      · simp [noWrites, Act.isWrite]
    · rw [if_neg h1]
      by_cases h2 : s.now > deadline
      · rw [if_pos h2]
        refine ⟨[Act.readReg REG_IRQFLAGS1, Act.logErr], s.now, s.rc + 1, ?_, ?_,
          le_refl _, le_max_left _ _⟩
        · simp [rdReg, logErr]
        · simp [noWrites, Act.isWrite]
      · rw [if_neg h2]
        obtain ⟨t, n, k, heq, hnw, hge, hle⟩ := ih (sleepMs 1 (rdReg c REG_IRQFLAGS1 s).2)
        refine ⟨[Act.readReg REG_IRQFLAGS1, Act.sleep 1] ++ t, n, k, ?_, ?_, ?_, ?_⟩
        · rw [heq]; simp [rdReg, sleepMs]
        · refine noWrites_append _ _ ?_ hnw
          simp [noWrites, Act.isWrite]
        · have hsn : (sleepMs 1 (rdReg c REG_IRQFLAGS1 s).2).now = s.now + 1 := by
            simp [rdReg, sleepMs]
          rw [hsn] at hge
          omega
        · have hsn : (sleepMs 1 (rdReg c REG_IRQFLAGS1 s).2).now = s.now + 1 := by
            simp [rdReg, sleepMs]
          rw [hsn] at hle
          omega

theorem gs_set_mode_eq_poll (c : Chip) (s : St) (m : Nat) (h : m ≠ s.mode) :
    set_mode c s m =
      { pollModeReady c 1002 (s.now + 1000)
          { mode := s.mode, now := s.now, rc := s.rc, last_rssi := s.last_rssi,
            log := s.log ++ [Act.writeReg REG_OPMODE m] }
        with mode := m } := by
  simp only [set_mode, wrReg]
  rw [if_neg h]

theorem gs_set_mode_spec (c : Chip) (s : St) (m : Nat) (h : m ≠ s.mode) :
    ∃ t n k, set_mode c s m =
      { mode := m, now := n, rc := k, last_rssi := s.last_rssi,
        log := s.log ++ [Act.writeReg REG_OPMODE m] ++ t } ∧
      noWrites t ∧ s.now ≤ n ∧ n ≤ s.now + 1001 := by
  have hx := gs_set_mode_eq_poll c s m h
  obtain ⟨t, n, k, heq, hnw, hge, hle⟩ := gs_poll_spec c 1002 (s.now + 1000)
    { mode := s.mode, now := s.now, rc := s.rc, last_rssi := s.last_rssi,
      log := s.log ++ [Act.writeReg REG_OPMODE m] }
  rw [hx, heq]
  refine ⟨t, n, k, ?_, hnw, by simpa using hge, ?_⟩
  · simp [List.append_assoc]
  · simp only [St.now] at hle ⊢
    omega

theorem gs_set_mode_mode (c : Chip) (s : St) (m : Nat) :
    (set_mode c s m).mode = m := by
  by_cases h : m = s.mode
  · simp [set_mode, h]
  · obtain ⟨t, n, k, heq, _⟩ := gs_set_mode_spec c s m h
    rw [heq]

theorem gs_set_mode_rssi (c : Chip) (s : St) (m : Nat) :
    (set_mode c s m).last_rssi = s.last_rssi := by
  by_cases h : m = s.mode
  · simp [set_mode, h]
  · obtain ⟨t, n, k, heq, _⟩ := gs_set_mode_spec c s m h
    rw [heq]

theorem gs_set_mode_now_ge (c : Chip) (s : St) (m : Nat) :
    s.now ≤ (set_mode c s m).now := by
  by_cases h : m = s.mode
  · simp [set_mode, h]
  · obtain ⟨t, n, k, heq, _, hge, _⟩ := gs_set_mode_spec c s m h
    rw [heq]
    exact hge

theorem gs_set_mode_now_le (c : Chip) (s : St) (m : Nat) :
    (set_mode c s m).now ≤ s.now + 1001 := by
  by_cases h : m = s.mode
  · simp [set_mode, h]
  · obtain ⟨t, n, k, heq, _, _, hle⟩ := gs_set_mode_spec c s m h
    rw [heq]
    exact hle

theorem gs_set_mode_log_ext (c : Chip) (s : St) (m : Nat) :
    ∃ u, (set_mode c s m).log = s.log ++ u := by
  by_cases h : m = s.mode
  · exact ⟨[], by simp [set_mode, h]⟩
  · obtain ⟨t, n, k, heq, _⟩ := gs_set_mode_spec c s m h
    exact ⟨[Act.writeReg REG_OPMODE m] ++ t, by rw [heq]; simp [List.append_assoc]⟩

theorem gs_poll_timeout (c : Chip)
    (htz : ∀ i, c i REG_IRQFLAGS1 % 256 &&& 0x80 = 0) :
    ∀ (fuel deadline : Nat) (s : St), s.now + fuel = deadline + 2 →
      s.now ≤ deadline + 1 →
      Act.logErr ∈ (pollModeReady c fuel deadline s).log := by
  intro fuel
  induction fuel with
  | zero => intro deadline s hf hb; omega
  | succ fuel ih =>
    intro deadline s hf hb
    simp only [pollModeReady]
    have h1 : ¬((rdReg c REG_IRQFLAGS1 s).1 &&& 0x80 ≠ 0) := by
      simp [rdReg, htz s.rc]
    rw [if_neg h1]
    by_cases h2 : s.now > deadline
    · rw [if_pos h2]
      simp [rdReg, logErr]
    · rw [if_neg h2]
      exact ih deadline (sleepMs 1 (rdReg c REG_IRQFLAGS1 s).2)
        (by simp [rdReg, sleepMs]; omega) (by simp [rdReg, sleepMs]; omega)

theorem gs_set_mode_timeout (c : Chip) (s : St) (m : Nat)
    (h : m ≠ s.mode) (htz : ∀ i, c i REG_IRQFLAGS1 % 256 &&& 0x80 = 0) :
    Act.logErr ∈ (set_mode c s m).log := by
  rw [gs_set_mode_eq_poll c s m h]
  show Act.logErr ∈ (pollModeReady c 1002 (s.now + 1000) _).log
  exact gs_poll_timeout c htz 1002 (s.now + 1000) _
    (by show s.now + 1002 = s.now + 1000 + 2; omega)
    (by show s.now ≤ s.now + 1000 + 1; omega)

end GroundstationRx

namespace GroundstationRx

theorem gs_rssiWait_spec (c : Chip) (fuel deadline : Nat) : ∀ s : St,
    ∃ t n k, rssiWait c fuel deadline s =
      { mode := s.mode, now := n, rc := k, last_rssi := s.last_rssi,
        log := s.log ++ t } ∧
      noWrites t ∧ s.now ≤ n := by
  induction fuel with
  | zero =>
    intro s
    refine ⟨[], s.now, s.rc, ?_, ?_, le_refl _⟩
    · simp [rssiWait]
    · simp [noWrites]
  | succ fuel ih =>
    intro s
    simp only [rssiWait]
    by_cases h1 : (rdReg c REG_RSSICONFIG s).1 &&& 0x02 ≠ 0
    · rw [if_pos h1]
      refine ⟨[Act.readReg REG_RSSICONFIG], s.now, s.rc + 1, ?_, ?_, le_refl _⟩
      · simp [rdReg]
      · simp [noWrites, Act.isWrite]
    · rw [if_neg h1]
      by_cases h2 : s.now > deadline
      · rw [if_pos h2]
        refine ⟨[Act.readReg REG_RSSICONFIG], s.now, s.rc + 1, ?_, ?_, le_refl _⟩
        · simp [rdReg]
        · simp [noWrites, Act.isWrite]
      · rw [if_neg h2]
        obtain ⟨t, n, k, heq, hnw, hge⟩ := ih (sleepMs 1 (rdReg c REG_RSSICONFIG s).2)
        refine ⟨[Act.readReg REG_RSSICONFIG, Act.sleep 1] ++ t, n, k, ?_, ?_, ?_⟩
        · rw [heq]; simp [rdReg, sleepMs]
        · refine noWrites_append _ _ ?_ hnw
          simp [noWrites, Act.isWrite]
        · have hsn : (sleepMs 1 (rdReg c REG_RSSICONFIG s).2).now = s.now + 1 := by
            simp [rdReg, sleepMs]
          rw [hsn] at hge
          omega

theorem gs_read_rssi_ext (c : Chip) (s : St) :
    ∃ t n k, (read_rssi c s).2 =
      { mode := s.mode, now := n, rc := k, last_rssi := s.last_rssi,
        log := s.log ++ t } ∧ s.now ≤ n := by
  simp only [read_rssi]
  obtain ⟨t, n, k, heq, hnw, hge⟩ :=
    gs_rssiWait_spec c 102 ((wrReg REG_RSSICONFIG 0x01 s).now + 100)
      (wrReg REG_RSSICONFIG 0x01 s)
  rw [heq]
  refine ⟨[Act.writeReg REG_RSSICONFIG 0x01] ++ t ++ [Act.readReg REG_RSSIVALUE],
    n, k + 1, ?_, ?_⟩
  · simp [rdReg, wrReg, List.append_assoc]
  · simpa [wrReg] using hge

theorem stepTail_done_none (c : Chip) (tm stt lrt cur : Nat) (s : St)
    (r : Option (List Nat)) (s2 : St)
    (h : stepTail c tm stt lrt cur s = StepRes.done r s2) : r = none := by
  rw [stepTail] at h
  split_ifs at h <;> simp_all

theorem stepTail_next_now (c : Chip) (tm stt lrt cur : Nat) (s : St)
    (l2 : Nat) (s2 : St)
    (h : stepTail c tm stt lrt cur s = StepRes.next l2 s2) :
    s.now + 10 ≤ s2.now ∧ cur ≤ stt + tm := by
  rw [stepTail] at h
  split_ifs at h with h1 h2
  · obtain ⟨hl, hs2⟩ := h
    obtain ⟨t, n, k, heq, hge⟩ := gs_read_rssi_ext c s
    refine ⟨?_, by omega⟩
    simp [sleepMs, rdReg, heq]
    omega
  · obtain ⟨hl, hs2⟩ := h
    refine ⟨?_, by omega⟩
    simp [sleepMs]

theorem stepTail_log_ext (c : Chip) (tm stt lrt cur : Nat) (s : St) :
    ∃ u, (stepTail c tm stt lrt cur s).st.log = s.log ++ u := by
  rw [stepTail]
  by_cases hd : cur - lrt > 2000 <;> by_cases h1 : cur - stt > tm <;>
      simp only [if_pos, if_neg, hd, h1, ite_true, ite_false, if_true, if_false]
  · obtain ⟨t, n, k, heq, hge⟩ := gs_read_rssi_ext c s
    obtain ⟨u, hu⟩ := gs_set_mode_log_ext c
      (rdReg c REG_IRQFLAGS1 (read_rssi c s).2).2 MODE_STANDBY
    refine ⟨t ++ [Act.readReg REG_IRQFLAGS1] ++ u, ?_⟩
    simp only [StepRes.st]
    rw [hu]
    simp [rdReg, heq, List.append_assoc]
  · obtain ⟨t, n, k, heq, hge⟩ := gs_read_rssi_ext c s
    refine ⟨t ++ [Act.readReg REG_IRQFLAGS1] ++ [Act.sleep 10], ?_⟩
    simp only [StepRes.st]
    simp [sleepMs, rdReg, heq, List.append_assoc]
  · obtain ⟨u, hu⟩ := gs_set_mode_log_ext c s MODE_STANDBY
    refine ⟨u, ?_⟩
    simp only [StepRes.st]
    exact hu
  · refine ⟨[Act.sleep 10], ?_⟩
    simp only [StepRes.st]
    simp [sleepMs]

theorem stepTail_rssi (c : Chip) (tm stt lrt cur : Nat) (s : St) :
    (stepTail c tm stt lrt cur s).st.last_rssi = s.last_rssi := by
  rw [stepTail]
  by_cases hd : cur - lrt > 2000 <;> by_cases h1 : cur - stt > tm <;>
      simp only [if_pos, if_neg, hd, h1, ite_true, ite_false, if_true, if_false] <;>
    simp only [StepRes.st]
  · obtain ⟨t, n, k, heq, hge⟩ := gs_read_rssi_ext c s
    rw [gs_set_mode_rssi]
    simp [rdReg, heq]
  · obtain ⟨t, n, k, heq, hge⟩ := gs_read_rssi_ext c s
    simp [sleepMs, rdReg, heq]
  · rw [gs_set_mode_rssi]
  · simp [sleepMs]

end GroundstationRx

namespace GroundstationRx

theorem gs_read_rssi_now_ge (c : Chip) (x : St) :
    x.now ≤ (read_rssi c x).2.now := by
  obtain ⟨t, n, k, heq, hge⟩ := gs_read_rssi_ext c x
  rw [heq]
  exact hge

theorem gs_set_mode_now_ge2 (c : Chip) (x : St) (m1 m2 : Nat) :
    x.now ≤ (set_mode c (set_mode c x m1) m2).now :=
  le_trans (gs_set_mode_now_ge c x m1) (gs_set_mode_now_ge c _ m2)

theorem gs_set_mode_now_ge2x (c : Chip) (x : St) (m1 m2 : Nat) (b : Nat)
    (hb : b ≤ x.now) : b ≤ (set_mode c (set_mode c x m1) m2).now :=
  le_trans hb (gs_set_mode_now_ge2 c x m1 m2)

theorem readFifoN_len (c : Chip) (n : Nat) (s : St) :
    (readFifoN c n s).1.length = n := by
  simp [readFifoN]

theorem receiveStep_payload (c : Chip) (tm stt lrt : Nat) (s : St)
    (p : List Nat) (s2 : St)
    (h : receiveStep c tm stt lrt s = StepRes.done (some p) s2) :
    0 < p.length ∧ p.length ≤ 66 := by
  simp only [receiveStep] at h
  split_ifs at h with h1 h2
  · simp only [StepRes.done.injEq, Option.some.injEq] at h
    rw [← h.1, readFifoN_len]
    exact h2
  · have := stepTail_done_none _ _ _ _ _ _ _ _ h
    simp at this
  · have := stepTail_done_none _ _ _ _ _ _ _ _ h
    simp at this

theorem receiveStep_next_now (c : Chip) (tm stt lrt : Nat) (s : St)
    (l2 : Nat) (s2 : St)
    (h : receiveStep c tm stt lrt s = StepRes.next l2 s2) :
    s.now + 10 ≤ s2.now ∧ s.now ≤ stt + tm := by
  have key : ∀ x : St, s.now ≤ x.now →
      stepTail c tm stt lrt s.now x = StepRes.next l2 s2 →
      s.now + 10 ≤ s2.now ∧ s.now ≤ stt + tm := by
    intro x hxnow hst
    obtain ⟨a, b⟩ := stepTail_next_now c tm stt lrt s.now x l2 s2 hst
    exact ⟨by omega, by omega⟩
  simp only [receiveStep] at h
  split_ifs at h with h1 h2
  · refine key _ ?_ h
    exact gs_set_mode_now_ge2x c _ MODE_STANDBY MODE_RX s.now (le_of_eq rfl)
  · refine key _ ?_ h
    exact Nat.le_refl _

end GroundstationRx

namespace GroundstationRx

theorem receiveStep_frame (c : Chip) (tm stt lrt : Nat) (s : St)
    (h1 : c s.rc REG_IRQFLAGS2 % 256 &&& 0x04 ≠ 0) :
    (∃ t, (receiveStep c tm stt lrt s).st.log =
        s.log ++ [Act.readReg REG_IRQFLAGS2, Act.readReg REG_RSSIVALUE,
          Act.readReg REG_FIFO] ++ t) ∧
    (receiveStep c tm stt lrt s).st.last_rssi =
      rssiToDbm (c (s.rc + 1) REG_RSSIVALUE % 256) := by
  have h1x : (rdReg c REG_IRQFLAGS2 s).1 &&& 0x04 ≠ 0 := by
    simpa [rdReg] using h1
  simp only [receiveStep]
  rw [if_pos h1x]
  set s3 : St := { (rdReg c REG_RSSIVALUE (rdReg c REG_IRQFLAGS2 s).2).2 with
    last_rssi := rssiToDbm (rdReg c REG_RSSIVALUE (rdReg c REG_IRQFLAGS2 s).2).1 }
    with hs3
  set ln := rdReg c REG_FIFO s3 with hln
  have hlog2 : ln.2.log = s.log ++ [Act.readReg REG_IRQFLAGS2,
      Act.readReg REG_RSSIVALUE, Act.readReg REG_FIFO] := by
    rw [hln, hs3]
    simp [rdReg, List.append_assoc]
  have hrssi2 : ln.2.last_rssi = rssiToDbm (c (s.rc + 1) REG_RSSIVALUE % 256) := by
    rw [hln, hs3]
    simp [rdReg]
  split_ifs with h2
  · constructor
    · obtain ⟨u, hu⟩ := gs_set_mode_log_ext c (readFifoN c ln.1 ln.2).2 MODE_STANDBY
      refine ⟨[Act.readFifoN ln.1] ++ u, ?_⟩
      simp only [StepRes.st]
      rw [hu]
      simp only [readFifoN]
      rw [hlog2]
      simp [List.append_assoc]
    · simp only [StepRes.st]
      rw [gs_set_mode_rssi]
      simp only [readFifoN]
      exact hrssi2
  · constructor
    · obtain ⟨u0, hu0⟩ := stepTail_log_ext c tm stt lrt s.now
        (set_mode c (set_mode c (logErr ln.2) MODE_STANDBY) MODE_RX)
      obtain ⟨u1, hu1⟩ := gs_set_mode_log_ext c (logErr ln.2) MODE_STANDBY
      obtain ⟨u2, hu2⟩ := gs_set_mode_log_ext c
        (set_mode c (logErr ln.2) MODE_STANDBY) MODE_RX
      refine ⟨[Act.logErr] ++ u1 ++ u2 ++ u0, ?_⟩
      rw [hu0, hu2, hu1]
      simp only [logErr]
      rw [hlog2]
      simp [List.append_assoc]
    · rw [stepTail_rssi, gs_set_mode_rssi, gs_set_mode_rssi]
      simp only [logErr]
      exact hrssi2

end GroundstationRx

namespace GroundstationRx

theorem receiveStep_flush (c : Chip) (tm stt lrt : Nat) (s : St)
    (hmode : s.mode = MODE_RX)
    (h1 : c s.rc REG_IRQFLAGS2 % 256 &&& 0x04 ≠ 0)
    (h2 : ¬(0 < c (s.rc + 2) REG_FIFO % 256 ∧ c (s.rc + 2) REG_FIFO % 256 ≤ 66)) :
    (∀ r s2, receiveStep c tm stt lrt s ≠ StepRes.done (some r) s2) ∧
    ∃ l1 l2 l3, (receiveStep c tm stt lrt s).st.log =
      s.log ++ l1 ++ [Act.writeReg REG_OPMODE MODE_STANDBY] ++ l2 ++
        [Act.writeReg REG_OPMODE MODE_RX] ++ l3 := by
  have h1x : (rdReg c REG_IRQFLAGS2 s).1 &&& 0x04 ≠ 0 := by
    simpa [rdReg] using h1
  have hred : receiveStep c tm stt lrt s =
      stepTail c tm stt lrt s.now
        (set_mode c (set_mode c
          (logErr (rdReg c REG_FIFO
            { (rdReg c REG_RSSIVALUE (rdReg c REG_IRQFLAGS2 s).2).2 with
              last_rssi :=
                rssiToDbm (rdReg c REG_RSSIVALUE (rdReg c REG_IRQFLAGS2 s).2).1 }).2)
          MODE_STANDBY) MODE_RX) := by
    simp only [receiveStep]
    rw [if_pos h1x]
    set s3 : St := { (rdReg c REG_RSSIVALUE (rdReg c REG_IRQFLAGS2 s).2).2 with
      last_rssi := rssiToDbm (rdReg c REG_RSSIVALUE (rdReg c REG_IRQFLAGS2 s).2).1 }
      with hs3
    set ln := rdReg c REG_FIFO s3 with hln
    have h2x : ¬(0 < ln.1 ∧ ln.1 ≤ 66) := by
      have : ln.1 = c (s.rc + 2) REG_FIFO % 256 := by
        rw [hln, hs3]
        simp [rdReg]
      rw [this]
      exact h2
    rw [if_neg h2x]
  rw [hred]
  set s3 : St := { (rdReg c REG_RSSIVALUE (rdReg c REG_IRQFLAGS2 s).2).2 with
    last_rssi := rssiToDbm (rdReg c REG_RSSIVALUE (rdReg c REG_IRQFLAGS2 s).2).1 }
    with hs3
  set ln := rdReg c REG_FIFO s3 with hln
  have hmode2 : (logErr ln.2).mode = MODE_RX := by
    rw [hln, hs3]
    simp [rdReg, logErr, hmode]
  have hlog2 : (logErr ln.2).log = s.log ++ [Act.readReg REG_IRQFLAGS2,
      Act.readReg REG_RSSIVALUE, Act.readReg REG_FIFO, Act.logErr] := by
    rw [hln, hs3]
    simp [rdReg, logErr, List.append_assoc]
  constructor
  · intro r s2 hcontra
    have := stepTail_done_none _ _ _ _ _ _ _ _ hcontra
    simp at this
  · have hne1 : MODE_STANDBY ≠ (logErr ln.2).mode := by
      rw [hmode2]; decide
    obtain ⟨t1, n1, k1, heq1, hnw1, _, _⟩ :=
      gs_set_mode_spec c (logErr ln.2) MODE_STANDBY hne1
    have hne2 : MODE_RX ≠ (set_mode c (logErr ln.2) MODE_STANDBY).mode := by
      rw [heq1]
      show MODE_RX ≠ MODE_STANDBY
      decide
    obtain ⟨t2, n2, k2, heq2, hnw2, _, _⟩ :=
      gs_set_mode_spec c (set_mode c (logErr ln.2) MODE_STANDBY) MODE_RX hne2
    obtain ⟨u0, hu0⟩ := stepTail_log_ext c tm stt lrt s.now
      (set_mode c (set_mode c (logErr ln.2) MODE_STANDBY) MODE_RX)
    refine ⟨[Act.readReg REG_IRQFLAGS2, Act.readReg REG_RSSIVALUE,
      Act.readReg REG_FIFO, Act.logErr], t1, t2 ++ u0, ?_⟩
    rw [hu0, heq2]
    simp only [St.log]
    rw [heq1]
    simp only [St.log]
    rw [hlog2]
    simp [List.append_assoc]

end GroundstationRx

namespace GroundstationRx

theorem gs_receiveLoop_valid (c : Chip) (tm stt : Nat) :
    ∀ (fuel lrt : Nat) (s : St) (p : List Nat) (s2 : St),
      receiveLoop c tm stt fuel lrt s = some (some p, s2) →
      0 < p.length ∧ p.length ≤ 66 := by
  intro fuel
  induction fuel with
  | zero =>
    intro lrt s p s2 h
    simp [receiveLoop] at h
  | succ fuel ih =>
    intro lrt s p s2 h
    rw [receiveLoop] at h
    rcases hstep : receiveStep c tm stt lrt s with ⟨r, s3⟩ | ⟨l2, s3⟩
    · rw [hstep] at h
      simp only [Option.some.injEq, Prod.mk.injEq] at h
      exact receiveStep_payload c tm stt lrt s p s3 (by rw [hstep, h.1])
    · rw [hstep] at h
      exact ih l2 s3 p s2 h

theorem gs_receiveLoop_total (c : Chip) (tm stt : Nat) :
    ∀ (fuel lrt : Nat) (s : St),
      stt + tm + 1 - s.now + 10 ≤ 10 * fuel →
      receiveLoop c tm stt fuel lrt s ≠ none := by
  intro fuel
  induction fuel with
  | zero => intro lrt s hb; omega
  | succ fuel ih =>
    intro lrt s hb
    rw [receiveLoop]
    rcases hstep : receiveStep c tm stt lrt s with ⟨r, s3⟩ | ⟨l2, s3⟩
    · simp
    · obtain ⟨ha, hc⟩ := receiveStep_next_now c tm stt lrt s l2 s3 hstep
      exact ih l2 s3 (by omega)

theorem gs_receive_valid (c : Chip) (s : St) (tmo : Nat) (p : List Nat) (s2 : St)
    (h : receive c s tmo = some (some p, s2)) :
    0 < p.length ∧ p.length ≤ 66 := by
  rw [receive] at h
  exact gs_receiveLoop_valid c tmo _ _ _ _ p s2 h

theorem gs_receive_total (c : Chip) (s : St) (tmo : Nat) :
    receive c s tmo ≠ none := by
  rw [receive]
  apply gs_receiveLoop_total
  omega

end GroundstationRx

theorem lastWriteTo_append_readReg (a b : Nat) (l : List Act) :
    lastWriteTo a (l ++ [Act.readReg b]) = lastWriteTo a l := by
  refine lastWriteTo_append_noWrites a l _ ?_
  simp [noWrites, Act.isWrite]

namespace IntegratedAvionics

theorem ia_packetWait_timeout (c : Chip)
    (hz : ∀ i, c i REG_IRQFLAGS2 % 256 &&& 0x08 = 0) :
    ∀ (fuel start : Nat) (s : St), start ≤ s.now → s.now ≤ start + 1001 →
      start + 1002 ≤ s.now + fuel →
      ∃ s2, packetWait c fuel start s = some (false, s2) ∧
        s2.mode = s.mode ∧
        lastWriteTo REG_OPMODE s2.log = lastWriteTo REG_OPMODE s.log := by
  intro fuel
  induction fuel with
  | zero => intro start s h1 hub h2; omega
  | succ fuel ih =>
    intro start s h1 hub h2
    simp only [packetWait]
    have hflag : ¬((rdReg c REG_IRQFLAGS2 s).1 &&& 0x08 ≠ 0) := by
      simp [rdReg, hz s.rc]
    rw [if_neg hflag]
    by_cases hdl : s.now - start > 1000
    · rw [if_pos hdl]
      refine ⟨(rdReg c REG_IRQFLAGS2 s).2, rfl, by simp [rdReg], ?_⟩
      simp only [rdReg]
      exact lastWriteTo_append_readReg _ _ _
    · rw [if_neg hdl]
      obtain ⟨s2, hpw, hm, hl⟩ := ih start (busyTick (rdReg c REG_IRQFLAGS2 s).2)
        (by simp [rdReg, busyTick]; omega)
        (by simp only [rdReg, busyTick]
            show s.now + 1 ≤ start + 1001
            omega)
        (by simp only [rdReg, busyTick]
            show start + 1002 ≤ s.now + 1 + fuel
            omega)
      refine ⟨s2, hpw, ?_, ?_⟩
      · rw [hm]
        simp [rdReg, busyTick]
      · rw [hl]
        simp only [rdReg, busyTick]
        exact lastWriteTo_append_readReg _ _ _

end IntegratedAvionics

theorem truncQ_eq_floor (q : ℚ) (h : 0 ≤ q) : truncQ q = ⌊q⌋ := by
  rw [truncQ, Rat.floor_def]
  exact Int.div_eq_ediv (Rat.num_nonneg.mpr h) (by positivity)

theorem recomb (w : Nat) (h : w < 2 ^ 24) :
    ((w >>> 16 &&& 0xFF) <<< 16) ||| ((w >>> 8 &&& 0xFF) <<< 8) ||| (w &&& 0xFF)
      = w := by
  have hA : w >>> 16 &&& 0xFF = w / 2 ^ 16 % 2 ^ 8 := by
    rw [Nat.shiftRight_eq_div_pow]
    exact Nat.and_pow_two_sub_one_eq_mod _ 8
  have hB : w >>> 8 &&& 0xFF = w / 2 ^ 8 % 2 ^ 8 := by
    rw [Nat.shiftRight_eq_div_pow]
    exact Nat.and_pow_two_sub_one_eq_mod _ 8
  have hC : w &&& 0xFF = w % 2 ^ 8 := Nat.and_pow_two_sub_one_eq_mod _ 8
  have or1 : ∀ a b : Nat, b < 2 ^ 16 → a * 2 ^ 16 ||| b = a * 2 ^ 16 + b := by
    intro a b hb
    rw [Nat.mul_comm]
    exact (Nat.mul_add_lt_is_or hb a).symm
  have or2 : ∀ a b : Nat, b < 2 ^ 8 → a * 2 ^ 8 ||| b = a * 2 ^ 8 + b := by
    intro a b hb
    rw [Nat.mul_comm]
    exact (Nat.mul_add_lt_is_or hb a).symm
  rw [hA, hB, hC, Nat.shiftLeft_eq, Nat.shiftLeft_eq]
  have hBlt : w / 2 ^ 8 % 2 ^ 8 * 2 ^ 8 < 2 ^ 16 := by
    have := Nat.mod_lt (w / 2 ^ 8) (show 0 < 2 ^ 8 by norm_num)
    omega
  have hClt : w % 2 ^ 8 < 2 ^ 8 := Nat.mod_lt _ (by norm_num)
  rw [or1 _ _ hBlt]
  rw [show w / 2 ^ 16 % 2 ^ 8 * 2 ^ 16 + w / 2 ^ 8 % 2 ^ 8 * 2 ^ 8 =
      (w / 2 ^ 16 % 2 ^ 8 * 2 ^ 8 + w / 2 ^ 8 % 2 ^ 8) * 2 ^ 8 by ring]
  rw [or2 _ _ hClt]
  omega

/-- C4: setTransmitPower first clamps the requested power to [-2, 20] dBm;
with high power and clamped power >= 18 it disables over-current
protection, writes power level 0x60 or-ed with dBm + 11 and enables the
boost registers; with high power and clamped power < 18 it enables
over-current protection, writes 0x60 or-ed with dBm + 14 and disables the
boost registers; without high power it writes 0x80 or-ed with dBm + 18;
and every power-level register value computed this way is a byte. -/
theorem claim_C4 (ihp : Bool) (power_dbm : Int) (s : St) :
    (AvionicsTx.set_tx_power ihp power_dbm s).log = s.log ++
      (if ihp = true then
        (if 18 ≤ max (-2) (min 20 power_dbm) then
          [Act.writeReg REG_OCP 0x0F,
           Act.writeReg REG_PALEVEL (0x60 ||| (max (-2) (min 20 power_dbm) + 11).toNat),
           Act.writeReg REG_TESTPA1 0x5D, Act.writeReg REG_TESTPA2 0x7C]
        else
          [Act.writeReg REG_OCP 0x1A,
           Act.writeReg REG_PALEVEL (0x60 ||| (max (-2) (min 20 power_dbm) + 14).toNat),
           Act.writeReg REG_TESTPA1 0x55, Act.writeReg REG_TESTPA2 0x70])
      else
        [Act.writeReg REG_PALEVEL (0x80 ||| (max (-2) (min 20 power_dbm) + 18).toNat)]) ∧
    -2 ≤ max (-2) (min 20 power_dbm) ∧ max (-2) (min 20 power_dbm) ≤ 20 ∧
    0x60 ||| (max (-2) (min 20 power_dbm) + 11).toNat ≤ 255 ∧
    0x60 ||| (max (-2) (min 20 power_dbm) + 14).toNat ≤ 255 ∧
    0x80 ||| (max (-2) (min 20 power_dbm) + 18).toNat ≤ 255 := by
  have hlo : -2 ≤ max (-2) (min 20 power_dbm) := by omega
  have hhi : max (-2) (min 20 power_dbm) ≤ 20 := by omega
  refine ⟨?_, hlo, hhi, ?_, ?_, ?_⟩
  · by_cases hi : ihp <;> by_cases hp : 18 ≤ max (-2) (min 20 power_dbm) <;>
      simp [AvionicsTx.set_tx_power, wrReg, hi, hp, List.append_assoc]
  · have h1 : (max (-2) (min 20 power_dbm) + 11).toNat < 2 ^ 8 := by omega
    have := Nat.or_lt_two_pow (show (0x60:Nat) < 2 ^ 8 by norm_num) h1
    omega
  · have h1 : (max (-2) (min 20 power_dbm) + 14).toNat < 2 ^ 8 := by omega
    have := Nat.or_lt_two_pow (show (0x60:Nat) < 2 ^ 8 by norm_num) h1
    omega
  · have h1 : (max (-2) (min 20 power_dbm) + 18).toNat < 2 ^ 8 := by omega
    have := Nat.or_lt_two_pow (show (0x80:Nat) < 2 ^ 8 by norm_num) h1
    omega

/-- C5: for every frequency in the supported band (nonnegative and below
the 24-bit ceiling of 1024 MHz), encoding to the frequency word by
truncation, splitting into three bytes MSB-first and decoding the bytes
back as word times FSTEP lands within one step size of the requested
frequency; and the step constant is both the derived 32 MHz / 2^19 and
the hard-coded 61.03515625. -/
theorem claim_C5 (f : ℚ) (h0 : 0 ≤ f) (hb : f < 1024) :
    FSTEP = 32000000 / 524288 ∧ FSTEP = 61.03515625 ∧
    |decodeFrf ((encodeFrf f).toNat >>> 16 &&& 0xFF)
        ((encodeFrf f).toNat >>> 8 &&& 0xFF)
        ((encodeFrf f).toNat &&& 0xFF) - f * 1000000| ≤ FSTEP := by
  have hfs : (0:ℚ) < FSTEP := by norm_num [FSTEP, FXOSC]
  refine ⟨rfl, by norm_num [FSTEP, FXOSC], ?_⟩
  set x : ℚ := f * 1000000 / FSTEP with hx
  have hx0 : 0 ≤ x := by
    rw [hx]
    positivity
  have henc : encodeFrf f = ⌊x⌋ := by
    rw [encodeFrf]
    exact truncQ_eq_floor _ hx0
  have hfl0 : 0 ≤ ⌊x⌋ := Int.floor_nonneg.mpr hx0
  have htn : (((encodeFrf f).toNat : ℤ)) = ⌊x⌋ := by
    rw [henc]
    exact Int.toNat_of_nonneg hfl0
  have hxlt : x < 2 ^ 24 := by
    rw [hx, div_lt_iff hfs]
    have hmul := mul_lt_mul_of_pos_right hb (show (0:ℚ) < 1000000 by norm_num)
    calc f * 1000000 < 1024 * 1000000 := hmul
      _ = 2 ^ 24 * FSTEP := by norm_num [FSTEP, FXOSC]
  have hwlt : (encodeFrf f).toNat < 2 ^ 24 := by
    have hfx : ⌊x⌋ < (2 ^ 24 : ℤ) := Int.floor_lt.mpr (by exact_mod_cast hxlt)
    omega
  rw [decodeFrf, recomb _ hwlt]
  have hq : (((encodeFrf f).toNat : ℚ)) = ((⌊x⌋ : ℤ) : ℚ) := by
    exact_mod_cast htn
  rw [hq]
  have hfx : f * 1000000 = x * FSTEP := by
    rw [hx]
    field_simp
  rw [hfx, ← sub_mul, abs_mul, abs_of_pos hfs]
  have h1 : |((⌊x⌋ : ℤ) : ℚ) - x| ≤ 1 := by
    rw [abs_le]
    constructor
    · have := Int.lt_floor_add_one x
      linarith
    · have := Int.floor_le x
      linarith
  calc |((⌊x⌋ : ℤ) : ℚ) - x| * FSTEP ≤ 1 * FSTEP :=
        mul_le_mul_of_nonneg_right h1 (le_of_lt hfs)
    _ = FSTEP := one_mul _

/-- C5 witness at the configured carrier frequency of 433 MHz. -/
theorem claim_C5_witness :
    (0:ℚ) ≤ 433 ∧ (433:ℚ) < 1024 ∧
    (FSTEP = 32000000 / 524288 ∧ FSTEP = 61.03515625 ∧
     |decodeFrf ((encodeFrf 433).toNat >>> 16 &&& 0xFF)
        ((encodeFrf 433).toNat >>> 8 &&& 0xFF)
        ((encodeFrf 433).toNat &&& 0xFF) - 433 * 1000000| ≤ FSTEP) :=
  ⟨by norm_num, by norm_num, claim_C5 433 (by norm_num) (by norm_num)⟩

/-- C6: for every mode transition with a target different from the stored
mode, in both drivers setMode terminates with the stored mode equal to
the target whether or not the chip reported ready, the elapsed time is
bounded by the 1-second deadline of the 1 ms poll loop, and if the chip
never reports mode-ready the deadline path logs an error (and does not
raise: the function is total and still returns the updated handle). -/
theorem claim_C6 (c : Chip) (ihp : Bool) (s : St) (m : Nat) (h : m ≠ s.mode) :
    ((AvionicsTx.set_mode c ihp s m).mode = m ∧
     s.now ≤ (AvionicsTx.set_mode c ihp s m).now ∧
     (AvionicsTx.set_mode c ihp s m).now ≤ s.now + 1001 ∧
     ((∀ i, c i REG_IRQFLAGS1 % 256 &&& 0x80 = 0) →
       Act.logErr ∈ (AvionicsTx.set_mode c ihp s m).log)) ∧
    ((GroundstationRx.set_mode c s m).mode = m ∧
     s.now ≤ (GroundstationRx.set_mode c s m).now ∧
     (GroundstationRx.set_mode c s m).now ≤ s.now + 1001 ∧
     ((∀ i, c i REG_IRQFLAGS1 % 256 &&& 0x80 = 0) →
       Act.logErr ∈ (GroundstationRx.set_mode c s m).log)) := by
  refine ⟨⟨AvionicsTx.set_mode_mode c ihp s m, AvionicsTx.set_mode_now_ge c ihp s m,
      AvionicsTx.set_mode_now_le c ihp s m,
      fun htz => AvionicsTx.set_mode_timeout c ihp s m h htz⟩,
    ⟨GroundstationRx.gs_set_mode_mode c s m, GroundstationRx.gs_set_mode_now_ge c s m,
      GroundstationRx.gs_set_mode_now_le c s m,
      fun htz => GroundstationRx.gs_set_mode_timeout c s m h htz⟩⟩

/-- C6 witness: a transition from Standby to Receive on a chip that
reports ready at once. -/
theorem claim_C6_witness :
    ((AvionicsTx.set_mode cAllSet true st0 MODE_RX).mode = MODE_RX ∧
     st0.now ≤ (AvionicsTx.set_mode cAllSet true st0 MODE_RX).now ∧
     (AvionicsTx.set_mode cAllSet true st0 MODE_RX).now ≤ st0.now + 1001 ∧
     ((∀ i, cAllSet i REG_IRQFLAGS1 % 256 &&& 0x80 = 0) →
       Act.logErr ∈ (AvionicsTx.set_mode cAllSet true st0 MODE_RX).log)) ∧
    ((GroundstationRx.set_mode cAllSet st0 MODE_RX).mode = MODE_RX ∧
     st0.now ≤ (GroundstationRx.set_mode cAllSet st0 MODE_RX).now ∧
     (GroundstationRx.set_mode cAllSet st0 MODE_RX).now ≤ st0.now + 1001 ∧
     ((∀ i, cAllSet i REG_IRQFLAGS1 % 256 &&& 0x80 = 0) →
       Act.logErr ∈ (GroundstationRx.set_mode cAllSet st0 MODE_RX).log)) :=
  claim_C6 cAllSet true st0 MODE_RX (by decide)

/-- C8: calling setMode with the stored mode as target performs no
hardware access at all and returns the handle unchanged, in both drivers;
hence a second consecutive setMode with the same target changes nothing
over the first call. -/
theorem claim_C8 (c : Chip) (ihp : Bool) (s : St) (m : Nat) :
    (s.mode = m →
      AvionicsTx.set_mode c ihp s m = s ∧ GroundstationRx.set_mode c s m = s) ∧
    AvionicsTx.set_mode c ihp (AvionicsTx.set_mode c ihp s m) m =
      AvionicsTx.set_mode c ihp s m ∧
    GroundstationRx.set_mode c (GroundstationRx.set_mode c s m) m =
      GroundstationRx.set_mode c s m := by
  have hav : ∀ x : St, x.mode = m → AvionicsTx.set_mode c ihp x m = x := by
    intro x hx
    simp [AvionicsTx.set_mode, hx]
  have hgs : ∀ x : St, x.mode = m → GroundstationRx.set_mode c x m = x := by
    intro x hx
    simp [GroundstationRx.set_mode, hx]
  exact ⟨fun he => ⟨hav s he, hgs s he⟩,
    hav _ (AvionicsTx.set_mode_mode c ihp s m),
    hgs _ (GroundstationRx.gs_set_mode_mode c s m)⟩

/-- C8 witness: a repeated Standby request on a fresh Standby handle. -/
theorem claim_C8_witness :
    AvionicsTx.set_mode cZero true st0 MODE_STANDBY = st0 ∧
    GroundstationRx.set_mode cZero st0 MODE_STANDBY = st0 :=
  (claim_C8 cZero true st0 MODE_STANDBY).1 (by decide)

/-- C7: Receive always terminates through the deadline logic (the fuel
bound never fires); every payload it returns came from a frame whose FIFO
length byte was in (0, 66]; and whenever payload-ready fires with a
length byte outside (0, 66] while listening in Receive mode, the
iteration returns no payload and its hardware log shows the flush cycle:
an operating-mode write to Standby followed by one back to Receive. -/
theorem claim_C7 (c : Chip) (s : St) (tmo : Nat) :
    GroundstationRx.receive c s tmo ≠ none ∧
    (∀ p s2, GroundstationRx.receive c s tmo = some (some p, s2) →
      0 < p.length ∧ p.length ≤ 66) ∧
    (∀ stt lrt (s1 : St), s1.mode = MODE_RX →
      c s1.rc REG_IRQFLAGS2 % 256 &&& 0x04 ≠ 0 →
      ¬(0 < c (s1.rc + 2) REG_FIFO % 256 ∧ c (s1.rc + 2) REG_FIFO % 256 ≤ 66) →
      (∀ r s2, GroundstationRx.receiveStep c tmo stt lrt s1 ≠
        GroundstationRx.StepRes.done (some r) s2) ∧
      ∃ l1 l2 l3, (GroundstationRx.receiveStep c tmo stt lrt s1).st.log =
        s1.log ++ l1 ++ [Act.writeReg REG_OPMODE MODE_STANDBY] ++ l2 ++
          [Act.writeReg REG_OPMODE MODE_RX] ++ l3) :=
  ⟨GroundstationRx.gs_receive_total c s tmo,
   fun p s2 h => GroundstationRx.gs_receive_valid c s tmo p s2 h,
   fun stt lrt s1 hm h1 h2 =>
     GroundstationRx.receiveStep_flush c tmo stt lrt s1 hm h1 h2⟩

/-- C7 witness: a corrupt frame whose length byte reads 200 while
listening in Receive mode. -/
theorem claim_C7_witness :
    (∀ r s2, GroundstationRx.receiveStep cRxBad 5000 0 0 stRx ≠
      GroundstationRx.StepRes.done (some r) s2) ∧
    ∃ l1 l2 l3, (GroundstationRx.receiveStep cRxBad 5000 0 0 stRx).st.log =
      stRx.log ++ l1 ++ [Act.writeReg REG_OPMODE MODE_STANDBY] ++ l2 ++
        [Act.writeReg REG_OPMODE MODE_RX] ++ l3 :=
  (claim_C7 cRxBad stRx 5000).2.2 0 0 stRx (by decide) (by decide) (by decide)

/-- C9: the RSSI register byte is converted to dBm as the negated floor
half (so raw 200 and raw 201 both decode to -100 dBm), and when Receive
handles a payload-ready frame the RSSI register read happens directly
after the flag read and before any FIFO read of that frame, its decoded
value being stored in the handle. -/
theorem claim_C9 (c : Chip) (tmo stt lrt : Nat) (s : St)
    (h1 : c s.rc REG_IRQFLAGS2 % 256 &&& 0x04 ≠ 0) :
    rssiToDbm 200 = -100 ∧ rssiToDbm 201 = -100 ∧
    (∃ t, (GroundstationRx.receiveStep c tmo stt lrt s).st.log =
      s.log ++ [Act.readReg REG_IRQFLAGS2, Act.readReg REG_RSSIVALUE,
        Act.readReg REG_FIFO] ++ t) ∧
    (GroundstationRx.receiveStep c tmo stt lrt s).st.last_rssi =
      rssiToDbm (c (s.rc + 1) REG_RSSIVALUE % 256) := by
  obtain ⟨ha, hbb⟩ := GroundstationRx.receiveStep_frame c tmo stt lrt s h1
  exact ⟨by decide, by decide, ha, hbb⟩

/-- C9 witness: a valid frame with raw RSSI byte 200, stored as -100. -/
theorem claim_C9_witness :
    rssiToDbm 200 = -100 ∧ rssiToDbm 201 = -100 ∧
    (∃ t, (GroundstationRx.receiveStep cRxGood 5000 0 0 stRx).st.log =
      stRx.log ++ [Act.readReg REG_IRQFLAGS2, Act.readReg REG_RSSIVALUE,
        Act.readReg REG_FIFO] ++ t) ∧
    (GroundstationRx.receiveStep cRxGood 5000 0 0 stRx).st.last_rssi =
      rssiToDbm (cRxGood 1 REG_RSSIVALUE % 256) :=
  claim_C9 cRxGood 5000 0 0 stRx (by decide)

/-- C10: in both drivers, if the byte read from the version register
after the hardware reset is not the expected identity 0x24, construction
raises before issuing any configuration register write: the hardware log
at the raise holds exactly the reset, its settle sleeps and the single
version-register read, none of which writes a chip register. -/
theorem claim_C10 (c : Chip) (ihp : Bool) (fq : ℚ) (s : St)
    (hv : c s.rc REG_VERSION % 256 ≠ 0x24) :
    (∃ s2, AvionicsTx.construct c ihp fq s =
      Except.error (c s.rc REG_VERSION % 256, s2) ∧
      s2.log = s.log ++ [Act.reset, Act.sleep 100, Act.sleep 100,
        Act.readReg REG_VERSION] ∧
      noWrites [Act.reset, Act.sleep 100, Act.sleep 100,
        Act.readReg REG_VERSION]) ∧
    (∃ s2, GroundstationRx.construct c fq s =
      Except.error (c s.rc REG_VERSION % 256, s2) ∧
      s2.log = s.log ++ [Act.reset, Act.sleep 100, Act.sleep 100,
        Act.readReg REG_VERSION] ∧
      noWrites [Act.reset, Act.sleep 100, Act.sleep 100,
        Act.readReg REG_VERSION]) := by
  have hvx : (rdReg c REG_VERSION (hwReset s)).1 ≠ 0x24 := by
    simpa [rdReg, hwReset, sleepMs] using hv
  constructor
  · refine ⟨(rdReg c REG_VERSION (hwReset s)).2, ?_, ?_, ?_⟩
    · simp only [AvionicsTx.construct]
      rw [if_pos hvx]
      simp [rdReg, hwReset, sleepMs]
    · simp [rdReg, hwReset, sleepMs, List.append_assoc]
    · intro a ha
      fin_cases ha <;> rfl
  · refine ⟨(rdReg c REG_VERSION (hwReset s)).2, ?_, ?_, ?_⟩
    · simp only [GroundstationRx.construct]
      rw [if_pos hvx]
      simp [rdReg, hwReset, sleepMs]
    · simp [rdReg, hwReset, sleepMs, List.append_assoc]
    · intro a ha
      fin_cases ha <;> rfl

/-- C10 witness: a dead bus that reads the version register as 0x00. -/
theorem claim_C10_witness :
    cZero st0.rc REG_VERSION % 256 ≠ 0x24 ∧
    ((∃ s2, AvionicsTx.construct cZero true 433 st0 =
      Except.error (cZero st0.rc REG_VERSION % 256, s2) ∧
      s2.log = st0.log ++ [Act.reset, Act.sleep 100, Act.sleep 100,
        Act.readReg REG_VERSION] ∧
      noWrites [Act.reset, Act.sleep 100, Act.sleep 100,
        Act.readReg REG_VERSION]) ∧
    (∃ s2, GroundstationRx.construct cZero 433 st0 =
      Except.error (cZero st0.rc REG_VERSION % 256, s2) ∧
      s2.log = st0.log ++ [Act.reset, Act.sleep 100, Act.sleep 100,
        Act.readReg REG_VERSION] ∧
      noWrites [Act.reset, Act.sleep 100, Act.sleep 100,
        Act.readReg REG_VERSION])) :=
  ⟨by decide, claim_C10 cZero true 433 st0 (by decide)⟩

/-- C1 (amended): in avionics_tx.py every code path of Send, success or
packet-sent timeout, writes the Standby mode before returning, so after
Send returns the stored mode and the last value written to the
operating-mode register are both Standby.  (The integrated_avionics.py
copy of Send violates the original claim: its timeout path returns the
failure without any Standby write, see the counterexample.) -/
theorem claim_C1 (c : Chip) (ihp : Bool) (s : St) (msg : List Nat) (dbg : Bool) :
    (AvionicsTx.send c ihp s msg dbg).2.mode = MODE_STANDBY ∧
    lastWriteTo REG_OPMODE (AvionicsTx.send c ihp s msg dbg).2.log =
      some MODE_STANDBY :=
  ⟨(AvionicsTx.send_spec c ihp s msg dbg).1,
   (AvionicsTx.send_spec c ihp s msg dbg).2.1⟩

/-- C1 counterexample: on a chip that reports mode-ready but never sets
PacketSent, integrated_avionics.py Send returns its failure result while
the last operating-mode write is still Transmit, not Standby. -/
theorem claim_C1_counterexample :
    (IntegratedAvionics.send cModeReadyOnly 2000 st0 [1, 2, 3]).map
        (fun r => (r.1, lastWriteTo REG_OPMODE r.2.log)) =
      some (false, some MODE_TX) ∧ MODE_TX ≠ MODE_STANDBY := by
  refine ⟨?_, by decide⟩
  have hz : ∀ i, cModeReadyOnly i REG_IRQFLAGS2 % 256 &&& 0x08 = 0 := fun i => by
    simp [cModeReadyOnly, REG_IRQFLAGS2, REG_IRQFLAGS1]
  have hsw : IntegratedAvionics.standbyWait cModeReadyOnly 2000
      (wrReg REG_OPMODE MODE_STANDBY st0) =
      some { mode := MODE_STANDBY, now := 0, rc := 1, last_rssi := 0,
             log := [Act.writeReg REG_OPMODE MODE_STANDBY,
                     Act.readReg REG_IRQFLAGS1] } := by
    decide
  simp only [IntegratedAvionics.send, hsw]
  obtain ⟨s2, hpw, hm, hl⟩ := IntegratedAvionics.ia_packetWait_timeout cModeReadyOnly hz
    2000 0
    { mode := MODE_STANDBY, now := 0, rc := 1, last_rssi := 0,
      log := [Act.writeReg REG_OPMODE MODE_STANDBY, Act.readReg REG_IRQFLAGS1,
        Act.writeFifo [3, 1, 2, 3], Act.writeReg REG_OPMODE MODE_TX] }
    (by decide) (by decide) (by decide)
  have harg : wrReg REG_OPMODE MODE_TX (wrFifo
      (([1, 2, 3] : List Nat).length :: [1, 2, 3])
      { mode := MODE_STANDBY, now := 0, rc := 1, last_rssi := 0,
        log := [Act.writeReg REG_OPMODE MODE_STANDBY, Act.readReg REG_IRQFLAGS1] }) =
      { mode := MODE_STANDBY, now := 0, rc := 1, last_rssi := 0,
        log := [Act.writeReg REG_OPMODE MODE_STANDBY, Act.readReg REG_IRQFLAGS1,
          Act.writeFifo [3, 1, 2, 3], Act.writeReg REG_OPMODE MODE_TX] } := by
    decide
  rw [harg, hpw]
  show some (false, lastWriteTo REG_OPMODE s2.log) = some (false, some MODE_TX)
  rw [hl]
  decide

/-- C3 (amended): in avionics_tx.py, the bytes framed into the FIFO by
Send are exactly the first min(length, 60) bytes of the payload, as one
burst of a single length byte equal to the truncated length followed by
the truncated payload.  (The integrated_avionics.py copy of Send frames
the full payload without truncation, see the counterexample.) -/
theorem claim_C3 (c : Chip) (ihp : Bool) (s : St) (msg : List Nat) (dbg : Bool) :
    fifoFrames (AvionicsTx.send c ihp s msg dbg).2.log =
      fifoFrames s.log ++ [min msg.length 60 :: msg.take 60] ∧
    (msg.take 60).length = min msg.length 60 := by
  have hlen : (msg.take 60).length = min msg.length 60 := by
    rw [List.length_take, Nat.min_comm]
  refine ⟨?_, hlen⟩
  have := (AvionicsTx.send_spec c ihp s msg dbg).2.2
  rw [this, hlen]

/-- C3 counterexample: integrated_avionics.py Send frames a 75-byte
payload whole: the one FIFO burst written carries length byte 75 and all
75 payload bytes, not the 60-byte truncation the claim requires. -/
theorem claim_C3_counterexample :
    (IntegratedAvionics.send cAllSet 2 st0 (List.replicate 75 65)).map
        (fun r => fifoFrames r.2.log) =
      some [75 :: List.replicate 75 65] ∧
    75 :: List.replicate 75 65 ≠
      min (List.replicate 75 65).length 60 :: (List.replicate 75 65).take 60 := by
  constructor
  · decide
  · decide

/-- C2 (amended): for every setMode call, if the current mode is Transmit
with high power the boost-disable writes are issued before the
operating-mode write, the boost-enable writes are issued only directly
after an operating-mode write targeting Transmit with the configured
power at least 18 dBm, and the rest of the transition performs no
register write at all; in addition setTransmitPower — which
initialization calls while in Standby — also writes the boost-enable
values whenever the clamped power is at least 18 dBm. -/
theorem claim_C2 (c : Chip) (ihp : Bool) (s : St) (m : Nat) (power_dbm : Int) :
    (m ≠ s.mode →
      ∃ t, noWrites t ∧ (AvionicsTx.set_mode c ihp s m).log =
        s.log ++
        (if s.mode = MODE_TX ∧ ihp = true then
          [Act.writeReg REG_TESTPA1 0x55, Act.writeReg REG_TESTPA2 0x70] else []) ++
        [Act.writeReg REG_OPMODE m] ++
        (if m = MODE_TX ∧ ihp = true ∧ 18 ≤ AvionicsTx.TX_POWER then
          [Act.writeReg REG_TESTPA1 0x5D, Act.writeReg REG_TESTPA2 0x7C] else []) ++
        t) ∧
    (18 ≤ max (-2) (min 20 power_dbm) → ihp = true →
      Act.writeReg REG_TESTPA1 0x5D ∈ (AvionicsTx.set_tx_power ihp power_dbm s).log ∧
      Act.writeReg REG_TESTPA2 0x7C ∈ (AvionicsTx.set_tx_power ihp power_dbm s).log) := by
  constructor
  · intro h
    obtain ⟨t, n, k, heq, hnw, _, _⟩ := AvionicsTx.set_mode_spec c ihp s m h
    refine ⟨t, hnw, ?_⟩
    rw [heq]
  · intro hp hi
    subst hi
    constructor <;> simp [AvionicsTx.set_tx_power, wrReg, hp]

/-- C2 witness: leaving Transmit for Standby under high power, and a
20 dBm setTransmitPower call. -/
theorem claim_C2_witness :
    (∃ t, noWrites t ∧ (AvionicsTx.set_mode cAllSet true stTx MODE_STANDBY).log =
      stTx.log ++
      (if stTx.mode = MODE_TX ∧ true = true then
        [Act.writeReg REG_TESTPA1 0x55, Act.writeReg REG_TESTPA2 0x70] else []) ++
      [Act.writeReg REG_OPMODE MODE_STANDBY] ++
      (if MODE_STANDBY = MODE_TX ∧ true = true ∧ 18 ≤ AvionicsTx.TX_POWER then
        [Act.writeReg REG_TESTPA1 0x5D, Act.writeReg REG_TESTPA2 0x7C] else []) ++
      t) ∧
    (Act.writeReg REG_TESTPA1 0x5D ∈ (AvionicsTx.set_tx_power true 20 st0).log ∧
     Act.writeReg REG_TESTPA2 0x7C ∈ (AvionicsTx.set_tx_power true 20 st0).log) :=
  ⟨(claim_C2 cAllSet true stTx MODE_STANDBY 20).1 (by decide),
   (claim_C2 cAllSet true st0 MODE_STANDBY 20).2 (by decide) rfl⟩

/-- C2 counterexample: initialization in avionics_tx.py writes the
boost-enable values 0x5D and 0x7C while the handle sits in Standby the
whole time, contradicting the original claim that they are never written
outside a Transmit-targeting setMode. -/
theorem claim_C2_counterexample :
    st0.mode = MODE_STANDBY ∧
    (AvionicsTx.init_radio cZero true 433 st0).mode = MODE_STANDBY ∧
    Act.writeReg REG_TESTPA1 0x5D ∈ (AvionicsTx.init_radio cZero true 433 st0).log ∧
    Act.writeReg REG_TESTPA2 0x7C ∈ (AvionicsTx.init_radio cZero true 433 st0).log := by
  refine ⟨rfl, ?_, ?_, ?_⟩ <;> decide
